import Mathlib

/-!
Verification of the `react-native-nitro-storage` scope-dispatch layer
(`HybridStorage.cpp`).  The dispatcher routes key-value operations to an
in-process memory map or to a native adapter (disk / secure domains),
and fans out change notifications to registered listeners.

The embedding below translates `HybridStorage.cpp` directly:
`std::unordered_map<std::string, std::string>` becomes an association
list, `double` scope selectors become rationals (every selector value of
interest — small integers and halves — is exactly representable as a
double, and the comparisons/truncation the code performs on them are
exact), C++ exceptions become `Except`, and the native adapter is the
map-backed service of `MockNativeAdapter` in `StorageTest.cpp` extended
with a spec-modelled failure knob (the spec treats the platform adapter
as an external service whose operations may raise a platform error).
-/

namespace NitroStorage

/-- A key-value store: the embedding of `std::unordered_map<std::string,
std::string>` (`memoryStore_`) and of the `std::map` domains of the mock
adapter.  Keys are unique; enumeration order is the list order (the C++
containers guarantee no particular order and no claim depends on it). -/
abbrev Store := List (String × String)

/-- Lookup (`find` on the map). -/
def storeGet : Store → String → Option String
  | [], _ => none
  | (k2, v) :: rest, k => if k2 = k then some v else storeGet rest k

/-- Insert-or-assign (`map[key] = value`). -/
def storeSet : Store → String → String → Store
  | [], k, v => [(k, v)]
  | (k2, v2) :: rest, k, v =>
      if k2 = k then (k, v) :: rest else (k2, v2) :: storeSet rest k v

/-- Erase (`map.erase(key)`): the key is absent afterwards.  The C++ map
holds at most one entry per key; this list model erases every entry
carrying the key, which coincides with map erasure on all states the
dispatcher can reach. -/
def storeErase : Store → String → Store
  | [], _ => []
  | (k2, v2) :: rest, k =>
      if k2 = k then storeErase rest k else (k2, v2) :: storeErase rest k

/-- The mock adapter's batch set loop: `count = min(|keys|, |values|)`,
then `store[keys[i]] = values[i]` for `i < count`.  The dispatcher's own
Memory batch loop only runs it with equal lengths. -/
def storeSetBatch : Store → List String → List String → Store
  | m, k :: ks, v :: vs => storeSetBatch (storeSet m k v) ks vs
  | m, _, _ => m

/-- Batch erase loop. -/
def storeEraseBatch : Store → List String → Store
  | m, [] => m
  | m, k :: ks => storeEraseBatch (storeErase m k) ks

/-- The three storage scopes (`enum class Scope { Memory = 0, Disk = 1,
Secure = 2 }`). -/
inductive Scope where
  | Memory
  | Disk
  | Secure
deriving DecidableEq, Repr

/-- `static_cast<int>(s)` on the scope enum. -/
def scopeToInt : Scope → Int
  | .Memory => 0
  | .Disk => 1
  | .Secure => 2

/-- The errors the dispatcher can raise, and the raw platform error an
adapter operation can raise (`std::runtime_error` taxonomy of §7).
`wrapped` is a dispatcher-level rethrow whose message carries the
operation/scope context; `adapterRaw` is an adapter error propagating
to the caller as-is. -/
inductive Err where
  | invalidScope
  | sizeMismatch
  | adapterNotInitialized
  | wrapped (msg : String)
  | adapterRaw (msg : String)
deriving DecidableEq, Repr

/-- `static_cast<int>(d)` on a double: truncation toward zero. -/
def cppTruncToInt (q : Rat) : Int :=
  if 0 ≤ q then q.floor else -((-q).floor)

/-- `HybridStorage::toScope`: rejects selectors outside `[0, 2]`, then
rejects non-integral selectors, then casts the integer to the enum. -/
def toScope (q : Rat) : Except Err Scope :=
  if q < 0 ∨ q > 2 then .error .invalidScope
  else if q ≠ (cppTruncToInt q : Rat) then .error .invalidScope
  else if cppTruncToInt q = 0 then .ok .Memory
  else if cppTruncToInt q = 1 then .ok .Disk
  else .ok .Secure

/-- `kBatchMissingSentinel`: the reserved string standing in for "key
absent" in `getBatch` results. -/
def kBatchMissingSentinel : String := "__nitro_storage_batch_missing__::v1"

/-- The native adapter's state.  The three stores, the access-control
level and the keychain group follow `MockNativeAdapter` in
`StorageTest.cpp` (the repository's map-backed adapter).

Modelled from the spec: the platform adapter is an external service
whose operations may raise a platform error ("catch any underlying
platform error", §4.1/§7); `failMsg` is that failure knob — when set,
every adapter operation raises a raw platform error carrying the
message, and when absent the operations behave as the mock's maps. -/
structure AdapterState where
  diskStore : Store
  secureStore : Store
  biometricStore : Store
  accessControlLevel : Int
  keychainGroup : String
  failMsg : Option String
deriving DecidableEq, Repr

/-- Runs one adapter operation: raises the raw platform error when the
failure knob is set, otherwise returns the given outcome. -/
def AdapterState.lift {α : Type} (a : AdapterState) (x : α) : Except Err α :=
  match a.failMsg with
  | some m => .error (.adapterRaw m)
  | none => .ok x

def AdapterState.setDisk (a : AdapterState) (k v : String) : Except Err AdapterState :=
  a.lift { a with diskStore := storeSet a.diskStore k v }

def AdapterState.getDisk (a : AdapterState) (k : String) : Except Err (Option String) :=
  a.lift (storeGet a.diskStore k)

def AdapterState.deleteDisk (a : AdapterState) (k : String) : Except Err AdapterState :=
  a.lift { a with diskStore := storeErase a.diskStore k }

def AdapterState.hasDisk (a : AdapterState) (k : String) : Except Err Bool :=
  a.lift (storeGet a.diskStore k).isSome

def AdapterState.getAllKeysDisk (a : AdapterState) : Except Err (List String) :=
  a.lift (a.diskStore.map Prod.fst)

def AdapterState.sizeDisk (a : AdapterState) : Except Err Nat :=
  a.lift a.diskStore.length

def AdapterState.setDiskBatch (a : AdapterState) (ks vs : List String) : Except Err AdapterState :=
  a.lift { a with diskStore := storeSetBatch a.diskStore ks vs }

def AdapterState.getDiskBatch (a : AdapterState) (ks : List String) : Except Err (List (Option String)) :=
  a.lift (ks.map (storeGet a.diskStore))

def AdapterState.deleteDiskBatch (a : AdapterState) (ks : List String) : Except Err AdapterState :=
  a.lift { a with diskStore := storeEraseBatch a.diskStore ks }

def AdapterState.clearDisk (a : AdapterState) : Except Err AdapterState :=
  a.lift { a with diskStore := [] }

def AdapterState.setSecure (a : AdapterState) (k v : String) : Except Err AdapterState :=
  a.lift { a with secureStore := storeSet a.secureStore k v }

def AdapterState.getSecure (a : AdapterState) (k : String) : Except Err (Option String) :=
  a.lift (storeGet a.secureStore k)

def AdapterState.deleteSecure (a : AdapterState) (k : String) : Except Err AdapterState :=
  a.lift { a with secureStore := storeErase a.secureStore k }

def AdapterState.hasSecure (a : AdapterState) (k : String) : Except Err Bool :=
  a.lift (storeGet a.secureStore k).isSome

def AdapterState.getAllKeysSecure (a : AdapterState) : Except Err (List String) :=
  a.lift (a.secureStore.map Prod.fst)

def AdapterState.sizeSecure (a : AdapterState) : Except Err Nat :=
  a.lift a.secureStore.length

def AdapterState.setSecureBatch (a : AdapterState) (ks vs : List String) : Except Err AdapterState :=
  a.lift { a with secureStore := storeSetBatch a.secureStore ks vs }

def AdapterState.getSecureBatch (a : AdapterState) (ks : List String) : Except Err (List (Option String)) :=
  a.lift (ks.map (storeGet a.secureStore))

def AdapterState.deleteSecureBatch (a : AdapterState) (ks : List String) : Except Err AdapterState :=
  a.lift { a with secureStore := storeEraseBatch a.secureStore ks }

def AdapterState.clearSecure (a : AdapterState) : Except Err AdapterState :=
  a.lift { a with secureStore := [] }

def AdapterState.setSecureAccessControl (a : AdapterState) (level : Int) : Except Err AdapterState :=
  a.lift { a with accessControlLevel := level }

def AdapterState.setKeychainAccessGroup (a : AdapterState) (g : String) : Except Err AdapterState :=
  a.lift { a with keychainGroup := g }

def AdapterState.setSecureBiometric (a : AdapterState) (k v : String) : Except Err AdapterState :=
  a.lift { a with biometricStore := storeSet a.biometricStore k v }

def AdapterState.getSecureBiometric (a : AdapterState) (k : String) : Except Err (Option String) :=
  a.lift (storeGet a.biometricStore k)

def AdapterState.deleteSecureBiometric (a : AdapterState) (k : String) : Except Err AdapterState :=
  a.lift { a with biometricStore := storeErase a.biometricStore k }

def AdapterState.hasSecureBiometric (a : AdapterState) (k : String) : Except Err Bool :=
  a.lift (storeGet a.biometricStore k).isSome

def AdapterState.clearSecureBiometric (a : AdapterState) : Except Err AdapterState :=
  a.lift { a with biometricStore := [] }

/-- A registered listener (`struct Listener { size_t id; callback }`).
The callback's behaviour is supplied separately, keyed by id, so the
state stays first-order. -/
structure Listener where
  id : Nat
deriving DecidableEq, Repr

/-- Behaviour of the registered callbacks, keyed by listener id: given
the notified key and optional value, the callback either returns or
raises. -/
abbrev CbBehavior := Nat → String → Option String → Except String Unit

/-- One change notification: the scope channel it went to, the payload,
and the ids of the listeners actually invoked. -/
structure Notification where
  scope : Int
  key : String
  value : Option String
  delivered : List Nat
deriving DecidableEq, Repr

/-- The dispatcher's state (`HybridStorage` members `memoryStore_`,
`nativeAdapter_`, `listeners_`, `nextListenerId_`).  `listeners` maps a
scope integer to its vector of listeners, defaulting to empty like
`unordered_map::operator[]`. -/
structure StorageState where
  memoryStore : Store
  nativeAdapter : Option AdapterState
  listeners : Int → List Listener
  nextListenerId : Nat

/-- Outcome of one dispatcher operation: the returned value or raised
error, the state after the call (C++ state persists across a throw),
and the notifications emitted. -/
structure OpOut (α : Type) where
  res : Except Err α
  state : StorageState
  events : List Notification

/-- The callback loop of `HybridStorage::notifyListeners`: each snapshot
entry's callback is invoked inside `try { ... } catch (...) {}`, so a
raised callback is recorded as invoked and the loop continues either
way. -/
def runSnapshot (cbs : CbBehavior) (key : String) (value : Option String) :
    List Listener → List Nat
  | [] => []
  | l :: rest =>
      match cbs l.id key value with
      | .ok _ => l.id :: runSnapshot cbs key value rest
      | .error _ => l.id :: runSnapshot cbs key value rest

/-- `HybridStorage::notifyListeners`: snapshots the scope's listener
vector (empty when the scope has none) and invokes each callback,
swallowing callback failures. -/
def notifyListeners (cbs : CbBehavior) (scope : Int) (key : String)
    (value : Option String) (st : StorageState) : Notification :=
  { scope := scope, key := key, value := value,
    delivered := runSnapshot cbs key value (st.listeners scope) }

/-- `ensureAdapter()` followed by a state-mutating adapter call wrapped
in `try { ... } catch`, rethrowing with the given context prefix
(`"NitroStorage: <op> failed: " + e.what()`). -/
def adapterMutate (st : StorageState) (wrapMsg : String)
    (f : AdapterState → Except Err AdapterState) : Except Err StorageState :=
  match st.nativeAdapter with
  | none => .error .adapterNotInitialized
  | some a =>
      match f a with
      | .error (.adapterRaw m) => .error (.wrapped (wrapMsg ++ m))
      | .error e => .error e
      | .ok a2 => .ok { st with nativeAdapter := some a2 }

/-- `ensureAdapter()` followed by a value-returning adapter call wrapped
in `try { ... } catch`, rethrowing with the given context prefix. -/
def adapterQuery {α : Type} (st : StorageState) (wrapMsg : String)
    (f : AdapterState → Except Err α) : Except Err α :=
  match st.nativeAdapter with
  | none => .error .adapterNotInitialized
  | some a =>
      match f a with
      | .error (.adapterRaw m) => .error (.wrapped (wrapMsg ++ m))
      | .error e => .error e
      | .ok x => .ok x

/-- `ensureAdapter()` followed by a value-returning adapter call with NO
`try`/`catch` (`has`, `getAllKeys`, `size`, `hasSecureBiometric`): an
adapter error propagates to the caller as-is. -/
def adapterQueryNoCatch {α : Type} (st : StorageState)
    (f : AdapterState → Except Err α) : Except Err α :=
  match st.nativeAdapter with
  | none => .error .adapterNotInitialized
  | some a => f a

/-- `ensureAdapter()` followed by a state-mutating adapter call with NO
`try`/`catch` (the two configuration setters): an adapter error
propagates to the caller as-is. -/
def adapterMutateNoCatch (st : StorageState)
    (f : AdapterState → Except Err AdapterState) : Except Err StorageState :=
  match st.nativeAdapter with
  | none => .error .adapterNotInitialized
  | some a =>
      match f a with
      | .error e => .error e
      | .ok a2 => .ok { st with nativeAdapter := some a2 }

namespace HybridStorage

/-- `HybridStorage::set`: validate scope, branch to the store, then
notify this scope's listeners with `(key, value)`. -/
def set (cbs : CbBehavior) (key value : String) (scope : Rat)
    (st : StorageState) : OpOut Unit :=
  match toScope scope with
  | .error e => ⟨.error e, st, []⟩
  | .ok .Memory =>
      let st1 := { st with memoryStore := storeSet st.memoryStore key value }
      ⟨.ok (), st1, [notifyListeners cbs 0 key (some value) st1]⟩
  | .ok .Disk =>
      match adapterMutate st "NitroStorage: Disk set failed: "
          (fun a => a.setDisk key value) with
      | .error e => ⟨.error e, st, []⟩
      | .ok st1 => ⟨.ok (), st1, [notifyListeners cbs 1 key (some value) st1]⟩
  | .ok .Secure =>
      match adapterMutate st "NitroStorage: Secure set failed: "
          (fun a => a.setSecure key value) with
      | .error e => ⟨.error e, st, []⟩
      | .ok st1 => ⟨.ok (), st1, [notifyListeners cbs 2 key (some value) st1]⟩

/-- `HybridStorage::get`: validate scope, look the key up; an absent
key is `none`, not an error. -/
def get (key : String) (scope : Rat) (st : StorageState) :
    OpOut (Option String) :=
  match toScope scope with
  | .error e => ⟨.error e, st, []⟩
  | .ok .Memory => ⟨.ok (storeGet st.memoryStore key), st, []⟩
  | .ok .Disk =>
      ⟨adapterQuery st "NitroStorage: Disk get failed: " (fun a => a.getDisk key),
        st, []⟩
  | .ok .Secure =>
      ⟨adapterQuery st "NitroStorage: Secure get failed: " (fun a => a.getSecure key),
        st, []⟩

/-- `HybridStorage::remove`: validate scope, erase, then notify with
`(key, no-value)` whether or not the key existed. -/
def remove (cbs : CbBehavior) (key : String) (scope : Rat)
    (st : StorageState) : OpOut Unit :=
  match toScope scope with
  | .error e => ⟨.error e, st, []⟩
  | .ok .Memory =>
      let st1 := { st with memoryStore := storeErase st.memoryStore key }
      ⟨.ok (), st1, [notifyListeners cbs 0 key none st1]⟩
  | .ok .Disk =>
      match adapterMutate st "NitroStorage: Disk delete failed: "
          (fun a => a.deleteDisk key) with
      | .error e => ⟨.error e, st, []⟩
      | .ok st1 => ⟨.ok (), st1, [notifyListeners cbs 1 key none st1]⟩
  | .ok .Secure =>
      match adapterMutate st "NitroStorage: Secure delete failed: "
          (fun a => a.deleteSecure key) with
      | .error e => ⟨.error e, st, []⟩
      | .ok st1 => ⟨.ok (), st1, [notifyListeners cbs 2 key none st1]⟩

/-- `HybridStorage::has` — the Disk/Secure delegations carry no
`try`/`catch`. -/
def has (key : String) (scope : Rat) (st : StorageState) : OpOut Bool :=
  match toScope scope with
  | .error e => ⟨.error e, st, []⟩
  | .ok .Memory => ⟨.ok (storeGet st.memoryStore key).isSome, st, []⟩
  | .ok .Disk => ⟨adapterQueryNoCatch st (fun a => a.hasDisk key), st, []⟩
  | .ok .Secure => ⟨adapterQueryNoCatch st (fun a => a.hasSecure key), st, []⟩

/-- `HybridStorage::getAllKeys` — no `try`/`catch` on the delegations. -/
def getAllKeys (scope : Rat) (st : StorageState) : OpOut (List String) :=
  match toScope scope with
  | .error e => ⟨.error e, st, []⟩
  | .ok .Memory => ⟨.ok (st.memoryStore.map Prod.fst), st, []⟩
  | .ok .Disk => ⟨adapterQueryNoCatch st (fun a => a.getAllKeysDisk), st, []⟩
  | .ok .Secure => ⟨adapterQueryNoCatch st (fun a => a.getAllKeysSecure), st, []⟩

/-- `HybridStorage::size` — no `try`/`catch` on the delegations. -/
def size (scope : Rat) (st : StorageState) : OpOut Nat :=
  match toScope scope with
  | .error e => ⟨.error e, st, []⟩
  | .ok .Memory => ⟨.ok st.memoryStore.length, st, []⟩
  | .ok .Disk => ⟨adapterQueryNoCatch st (fun a => a.sizeDisk), st, []⟩
  | .ok .Secure => ⟨adapterQueryNoCatch st (fun a => a.sizeSecure), st, []⟩

/-- `HybridStorage::clear`: empty the target store, then notify once
with the sentinel empty key and no value. -/
def clear (cbs : CbBehavior) (scope : Rat) (st : StorageState) : OpOut Unit :=
  match toScope scope with
  | .error e => ⟨.error e, st, []⟩
  | .ok .Memory =>
      let st1 := { st with memoryStore := [] }
      ⟨.ok (), st1, [notifyListeners cbs 0 "" none st1]⟩
  | .ok .Disk =>
      match adapterMutate st "NitroStorage: Disk clear failed: "
          (fun a => a.clearDisk) with
      | .error e => ⟨.error e, st, []⟩
      | .ok st1 => ⟨.ok (), st1, [notifyListeners cbs 1 "" none st1]⟩
  | .ok .Secure =>
      match adapterMutate st "NitroStorage: Secure clear failed: "
          (fun a => a.clearSecure) with
      | .error e => ⟨.error e, st, []⟩
      | .ok st1 => ⟨.ok (), st1, [notifyListeners cbs 2 "" none st1]⟩

/-- `HybridStorage::setBatch`: the length check precedes everything,
then scope validation, then the branch, then one notification per key
in input order. -/
def setBatch (cbs : CbBehavior) (keys values : List String) (scope : Rat)
    (st : StorageState) : OpOut Unit :=
  if keys.length ≠ values.length then ⟨.error .sizeMismatch, st, []⟩
  else
    match toScope scope with
    | .error e => ⟨.error e, st, []⟩
    | .ok .Memory =>
        let st1 := { st with memoryStore := storeSetBatch st.memoryStore keys values }
        ⟨.ok (), st1,
          (keys.zip values).map (fun p => notifyListeners cbs 0 p.1 (some p.2) st1)⟩
    | .ok .Disk =>
        match adapterMutate st "NitroStorage: Disk setBatch failed: "
            (fun a => a.setDiskBatch keys values) with
        | .error e => ⟨.error e, st, []⟩
        | .ok st1 =>
            ⟨.ok (), st1,
              (keys.zip values).map (fun p => notifyListeners cbs 1 p.1 (some p.2) st1)⟩
    | .ok .Secure =>
        match adapterMutate st "NitroStorage: Secure setBatch failed: "
            (fun a => a.setSecureBatch keys values) with
        | .error e => ⟨.error e, st, []⟩
        | .ok st1 =>
            ⟨.ok (), st1,
              (keys.zip values).map (fun p => notifyListeners cbs 2 p.1 (some p.2) st1)⟩

/-- `HybridStorage::getBatch`: per-position stored value, with the
reserved sentinel standing in for an absent key. -/
def getBatch (keys : List String) (scope : Rat) (st : StorageState) :
    OpOut (List String) :=
  match toScope scope with
  | .error e => ⟨.error e, st, []⟩
  | .ok .Memory =>
      ⟨.ok (keys.map (fun k => (storeGet st.memoryStore k).getD kBatchMissingSentinel)),
        st, []⟩
  | .ok .Disk =>
      match adapterQuery st "NitroStorage: Disk getBatch failed: "
          (fun a => a.getDiskBatch keys) with
      | .error e => ⟨.error e, st, []⟩
      | .ok values =>
          ⟨.ok (values.map (fun v => v.getD kBatchMissingSentinel)), st, []⟩
  | .ok .Secure =>
      match adapterQuery st "NitroStorage: Secure getBatch failed: "
          (fun a => a.getSecureBatch keys) with
      | .error e => ⟨.error e, st, []⟩
      | .ok values =>
          ⟨.ok (values.map (fun v => v.getD kBatchMissingSentinel)), st, []⟩

/-- `HybridStorage::removeBatch`: erase each key, then one `(key,
no-value)` notification per key in input order. -/
def removeBatch (cbs : CbBehavior) (keys : List String) (scope : Rat)
    (st : StorageState) : OpOut Unit :=
  match toScope scope with
  | .error e => ⟨.error e, st, []⟩
  | .ok .Memory =>
      let st1 := { st with memoryStore := storeEraseBatch st.memoryStore keys }
      ⟨.ok (), st1, keys.map (fun k => notifyListeners cbs 0 k none st1)⟩
  | .ok .Disk =>
      match adapterMutate st "NitroStorage: Disk removeBatch failed: "
          (fun a => a.deleteDiskBatch keys) with
      | .error e => ⟨.error e, st, []⟩
      | .ok st1 => ⟨.ok (), st1, keys.map (fun k => notifyListeners cbs 1 k none st1)⟩
  | .ok .Secure =>
      match adapterMutate st "NitroStorage: Secure removeBatch failed: "
          (fun a => a.deleteSecureBatch keys) with
      | .error e => ⟨.error e, st, []⟩
      | .ok st1 => ⟨.ok (), st1, keys.map (fun k => notifyListeners cbs 2 k none st1)⟩

/-- `HybridStorage::addOnChange`: NO scope validation — the selector is
truncated with `static_cast<int>` and a fresh-id listener is appended to
that integer channel.  Returns the new listener's id (the C++ closure
capturing `(intScope, listenerId)`). -/
def addOnChange (scope : Rat) (st : StorageState) : OpOut Nat :=
  let intScope := cppTruncToInt scope
  let listenerId := st.nextListenerId
  ⟨.ok listenerId,
    { st with
      nextListenerId := st.nextListenerId + 1,
      listeners := fun j =>
        if j = intScope then st.listeners j ++ [⟨listenerId⟩] else st.listeners j },
    []⟩

/-- `HybridStorage::setSecureAccessControl`: `ensureAdapter()` then a
direct (uncaught) adapter call with the truncated level. -/
def setSecureAccessControl (level : Rat) (st : StorageState) : OpOut Unit :=
  match adapterMutateNoCatch st
      (fun a => a.setSecureAccessControl (cppTruncToInt level)) with
  | .error e => ⟨.error e, st, []⟩
  | .ok st1 => ⟨.ok (), st1, []⟩

/-- `HybridStorage::setKeychainAccessGroup`: `ensureAdapter()` then a
direct (uncaught) adapter call. -/
def setKeychainAccessGroup (g : String) (st : StorageState) : OpOut Unit :=
  match adapterMutateNoCatch st (fun a => a.setKeychainAccessGroup g) with
  | .error e => ⟨.error e, st, []⟩
  | .ok st1 => ⟨.ok (), st1, []⟩

/-- `HybridStorage::setSecureBiometric`: adapter set plus a Secure-scope
notification, wrapped together in `try`/`catch`. -/
def setSecureBiometric (cbs : CbBehavior) (key value : String)
    (st : StorageState) : OpOut Unit :=
  match adapterMutate st "NitroStorage: Biometric set failed: "
      (fun a => a.setSecureBiometric key value) with
  | .error e => ⟨.error e, st, []⟩
  | .ok st1 => ⟨.ok (), st1, [notifyListeners cbs 2 key (some value) st1]⟩

/-- `HybridStorage::getSecureBiometric`. -/
def getSecureBiometric (key : String) (st : StorageState) :
    OpOut (Option String) :=
  ⟨adapterQuery st "NitroStorage: Biometric get failed: "
      (fun a => a.getSecureBiometric key), st, []⟩

/-- `HybridStorage::deleteSecureBiometric`. -/
def deleteSecureBiometric (cbs : CbBehavior) (key : String)
    (st : StorageState) : OpOut Unit :=
  match adapterMutate st "NitroStorage: Biometric delete failed: "
      (fun a => a.deleteSecureBiometric key) with
  | .error e => ⟨.error e, st, []⟩
  | .ok st1 => ⟨.ok (), st1, [notifyListeners cbs 2 key none st1]⟩

/-- `HybridStorage::hasSecureBiometric` — no `try`/`catch`. -/
def hasSecureBiometric (key : String) (st : StorageState) : OpOut Bool :=
  ⟨adapterQueryNoCatch st (fun a => a.hasSecureBiometric key), st, []⟩

/-- `HybridStorage::clearSecureBiometric`. -/
def clearSecureBiometric (cbs : CbBehavior) (st : StorageState) : OpOut Unit :=
  match adapterMutate st "NitroStorage: Biometric clear failed: "
      (fun a => a.clearSecureBiometric) with
  | .error e => ⟨.error e, st, []⟩
  | .ok st1 => ⟨.ok (), st1, [notifyListeners cbs 2 "" none st1]⟩

end HybridStorage

/-- The mutating dispatcher operations, reified for reasoning about
call sequences. -/
inductive Op where
  | opSet (key value : String) (scope : Rat)
  | opRemove (key : String) (scope : Rat)
  | opClear (scope : Rat)
  | opSetBatch (keys values : List String) (scope : Rat)
  | opRemoveBatch (keys : List String) (scope : Rat)

/-- Runs one reified operation. -/
def runOp (cbs : CbBehavior) (st : StorageState) : Op → OpOut Unit
  | .opSet k v q => HybridStorage.set cbs k v q st
  | .opRemove k q => HybridStorage.remove cbs k q st
  | .opClear q => HybridStorage.clear cbs q st
  | .opSetBatch ks vs q => HybridStorage.setBatch cbs ks vs q st
  | .opRemoveBatch ks q => HybridStorage.removeBatch cbs ks q st

/-- State after a sequence of mutating operations. -/
def runTrace (cbs : CbBehavior) (st : StorageState) : List Op → StorageState
  | [] => st
  | op :: rest => runTrace cbs (runOp cbs st op).state rest

/-- Whether an operation targets the binding of key `k` in scope `s`:
a set/remove of that key at that scope, a clear of that scope, or a
batch op at that scope naming the key. -/
def writesKey (k : String) (s : Scope) : Op → Bool
  | .opSet k2 _ q2 =>
      match toScope q2 with
      | .ok s2 => decide (s2 = s ∧ k2 = k)
      | .error _ => false
  | .opRemove k2 q2 =>
      match toScope q2 with
      | .ok s2 => decide (s2 = s ∧ k2 = k)
      | .error _ => false
  | .opClear q2 =>
      match toScope q2 with
      | .ok s2 => decide (s2 = s)
      | .error _ => false
  | .opSetBatch ks _ q2 =>
      match toScope q2 with
      | .ok s2 => decide (s2 = s ∧ k ∈ ks)
      | .error _ => false
  | .opRemoveBatch ks q2 =>
      match toScope q2 with
      | .ok s2 => decide (s2 = s ∧ k ∈ ks)
      | .error _ => false

/-- The binding of key `k` in scope `s` as seen through the dispatcher:
the memory map or the adapter's disk/secure domain (absent when no
adapter is attached). -/
def lookupScope (st : StorageState) (k : String) : Scope → Option String
  | .Memory => storeGet st.memoryStore k
  | .Disk =>
      match st.nativeAdapter with
      | none => none
      | some a => storeGet a.diskStore k
  | .Secure =>
      match st.nativeAdapter with
      | none => none
      | some a => storeGet a.secureStore k

/-- Presence of the adapter together with its failure knob: the part of
the state that decides whether Disk/Secure calls can succeed. -/
def adapterStatus (st : StorageState) : Option (Option String) :=
  st.nativeAdapter.map AdapterState.failMsg

/-- A scope whose reads/writes can currently succeed: Memory always,
Disk/Secure when a non-failing adapter is attached. -/
def scopeReadable (st : StorageState) : Scope → Prop
  | .Memory => True
  | _ => adapterStatus st = some none

/-- Callback behaviour where every listener returns normally. -/
def cbs0 : CbBehavior := fun _ _ _ => .ok ()

/-- A freshly constructed dispatcher with no adapter attached
(`HybridStorage(adapter)` with a null pointer). -/
def st0 : StorageState := ⟨[], none, fun _ => [], 0⟩

/-- An empty, healthy adapter. -/
def a0 : AdapterState := ⟨[], [], [], 0, "", none⟩

/-- An adapter whose operations raise the platform error "boom". -/
def aF : AdapterState := ⟨[], [], [], 0, "", some "boom"⟩

/-- A fresh dispatcher with the healthy adapter attached. -/
def stA : StorageState := ⟨[], some a0, fun _ => [], 0⟩

/-- A fresh dispatcher with the failing adapter attached. -/
def stF : StorageState := ⟨[], some aF, fun _ => [], 0⟩

/-- A dispatcher with one listener (id 0) registered on the Memory
channel. -/
def stL : StorageState := ⟨[], none, fun j => if j = 0 then [⟨0⟩] else [], 1⟩

/-- A dispatcher whose memory store holds the single entry
`"a" ↦ "1"`. -/
def stM : StorageState := ⟨[("a", "1")], none, fun _ => [], 0⟩

end NitroStorage

namespace NitroStorage

theorem toScope_zero : toScope 0 = .ok .Memory := rfl

theorem toScope_one : toScope 1 = .ok .Disk := rfl

theorem toScope_two : toScope 2 = .ok .Secure := rfl

theorem toScope_not012 (q : Rat) (h : ¬(q = 0 ∨ q = 1 ∨ q = 2)) :
    toScope q = .error .invalidScope := by
  unfold toScope
  by_cases h1 : q < 0 ∨ q > 2
  · simp [h1]
  · push_neg at h1
    by_cases h2 : q = (cppTruncToInt q : Rat)
    · exfalso
      have hle : (0 : Rat) ≤ (cppTruncToInt q : Rat) := h2 ▸ h1.1
      have hge : ((cppTruncToInt q : Int) : Rat) ≤ 2 := h2 ▸ h1.2
      have hle2 : (0 : Int) ≤ cppTruncToInt q := by exact_mod_cast hle
      have hge2 : cppTruncToInt q ≤ 2 := by exact_mod_cast hge
      interval_cases h3 : cppTruncToInt q <;> push_cast at h2 <;> exact h (by tauto)
    · have : ¬(q < 0 ∨ q > 2) := by push_neg; exact h1
      simp [this, h2]

theorem storeGet_storeSet_self (m : Store) (k v : String) :
    storeGet (storeSet m k v) k = some v := by
  induction m with
  | nil => simp [storeSet, storeGet]
  | cons hd tl ih =>
      obtain ⟨k2, v2⟩ := hd
      by_cases h : k2 = k <;> simp [storeSet, storeGet, h, ih]

theorem storeGet_storeSet_ne (m : Store) (k k2 v : String) (h : k2 ≠ k) :
    storeGet (storeSet m k2 v) k = storeGet m k := by
  induction m with
  | nil => simp [storeSet, storeGet, h]
  | cons hd tl ih =>
      obtain ⟨k3, v3⟩ := hd
      by_cases h3 : k3 = k2
      · subst h3
        simp [storeSet, storeGet, h]
      · simp [storeSet, storeGet, h3, ih]

theorem storeGet_storeErase_self (m : Store) (k : String) :
    storeGet (storeErase m k) k = none := by
  induction m with
  | nil => simp [storeErase, storeGet]
  | cons hd tl ih =>
      obtain ⟨k2, v2⟩ := hd
      by_cases h : k2 = k <;> simp [storeErase, storeGet, h, ih]

theorem storeGet_storeErase_ne (m : Store) (k k2 : String) (h : k2 ≠ k) :
    storeGet (storeErase m k2) k = storeGet m k := by
  induction m with
  | nil => simp [storeErase, storeGet]
  | cons hd tl ih =>
      obtain ⟨k3, v3⟩ := hd
      by_cases h3 : k3 = k2
      · subst h3
        have : k3 ≠ k := h
        simp [storeErase, storeGet, this, ih]
      · simp [storeErase, storeGet, h3, ih]

theorem storeGet_storeSetBatch_not_mem (ks : List String) (vs : List String)
    (m : Store) (k : String) (h : k ∉ ks) :
    storeGet (storeSetBatch m ks vs) k = storeGet m k := by
  induction ks generalizing m vs with
  | nil => simp [storeSetBatch]
  | cons k2 ks2 ih =>
      cases vs with
      | nil => simp [storeSetBatch]
      | cons v2 vs2 =>
          simp only [List.mem_cons, not_or] at h
          simp only [storeSetBatch]
          rw [ih _ _ h.2, storeGet_storeSet_ne _ _ _ _ (Ne.symm h.1)]

theorem storeGet_storeEraseBatch_not_mem (ks : List String) (m : Store)
    (k : String) (h : k ∉ ks) :
    storeGet (storeEraseBatch m ks) k = storeGet m k := by
  induction ks generalizing m with
  | nil => simp [storeEraseBatch]
  | cons k2 ks2 ih =>
      simp only [List.mem_cons, not_or] at h
      simp only [storeEraseBatch]
      rw [ih _ h.2, storeGet_storeErase_ne _ _ _ (Ne.symm h.1)]

theorem runSnapshot_ids (cbs : CbBehavior) (key : String) (value : Option String)
    (ls : List Listener) : runSnapshot cbs key value ls = ls.map Listener.id := by
  induction ls with
  | nil => simp [runSnapshot]
  | cons l rest ih =>
      cases h : cbs l.id key value <;> simp [runSnapshot, h, ih]

theorem adapterMutate_lift_eq (st : StorageState) (msg : String)
    (g : AdapterState → AdapterState) :
    adapterMutate st msg (fun a => a.lift (g a)) =
      match st.nativeAdapter with
      | none => .error .adapterNotInitialized
      | some a =>
          match a.failMsg with
          | some m => .error (.wrapped (msg ++ m))
          | none => .ok { st with nativeAdapter := some (g a) } := by
  cases ha : st.nativeAdapter with
  | none => simp [adapterMutate, ha]
  | some a => cases hf : a.failMsg <;> simp [adapterMutate, AdapterState.lift, ha, hf]

theorem adapterQuery_lift_eq {α : Type} (st : StorageState) (msg : String)
    (v : AdapterState → α) :
    adapterQuery st msg (fun a => a.lift (v a)) =
      match st.nativeAdapter with
      | none => .error .adapterNotInitialized
      | some a =>
          match a.failMsg with
          | some m => .error (.wrapped (msg ++ m))
          | none => .ok (v a) := by
  cases ha : st.nativeAdapter with
  | none => simp [adapterQuery, ha]
  | some a => cases hf : a.failMsg <;> simp [adapterQuery, AdapterState.lift, ha, hf]

theorem adapterQueryNoCatch_lift_eq {α : Type} (st : StorageState)
    (v : AdapterState → α) :
    adapterQueryNoCatch st (fun a => a.lift (v a)) =
      match st.nativeAdapter with
      | none => .error .adapterNotInitialized
      | some a =>
          match a.failMsg with
          | some m => .error (.adapterRaw m)
          | none => .ok (v a) := by
  cases ha : st.nativeAdapter with
  | none => simp [adapterQueryNoCatch, ha]
  | some a =>
      cases hf : a.failMsg <;> simp [adapterQueryNoCatch, AdapterState.lift, ha, hf]

theorem adapterMutateNoCatch_lift_eq (st : StorageState)
    (g : AdapterState → AdapterState) :
    adapterMutateNoCatch st (fun a => a.lift (g a)) =
      match st.nativeAdapter with
      | none => .error .adapterNotInitialized
      | some a =>
          match a.failMsg with
          | some m => .error (.adapterRaw m)
          | none => .ok { st with nativeAdapter := some (g a) } := by
  cases ha : st.nativeAdapter with
  | none => simp [adapterMutateNoCatch, ha]
  | some a =>
      cases hf : a.failMsg <;> simp [adapterMutateNoCatch, AdapterState.lift, ha, hf]

theorem set_memory (cbs : CbBehavior) (k v : String) (q : Rat) (st : StorageState)
    (h : toScope q = .ok .Memory) :
    HybridStorage.set cbs k v q st =
      ⟨.ok (), { st with memoryStore := storeSet st.memoryStore k v },
        [notifyListeners cbs 0 k (some v)
          { st with memoryStore := storeSet st.memoryStore k v }]⟩ := by
  simp [HybridStorage.set, h]

theorem set_disk_none (cbs : CbBehavior) (k v : String) (q : Rat)
    (st : StorageState) (h : toScope q = .ok .Disk)
    (ha : st.nativeAdapter = none) :
    HybridStorage.set cbs k v q st = ⟨.error .adapterNotInitialized, st, []⟩ := by
  simp [HybridStorage.set, h, AdapterState.setDisk, adapterMutate_lift_eq, ha]

theorem set_disk_fail (cbs : CbBehavior) (k v : String) (q : Rat)
    (st : StorageState) (a : AdapterState) (m : String)
    (h : toScope q = .ok .Disk) (ha : st.nativeAdapter = some a)
    (hf : a.failMsg = some m) :
    HybridStorage.set cbs k v q st =
      ⟨.error (.wrapped ("NitroStorage: Disk set failed: " ++ m)), st, []⟩ := by
  simp [HybridStorage.set, h, AdapterState.setDisk, adapterMutate_lift_eq, ha, hf]

theorem set_disk_ok (cbs : CbBehavior) (k v : String) (q : Rat)
    (st : StorageState) (a : AdapterState)
    (h : toScope q = .ok .Disk) (ha : st.nativeAdapter = some a)
    (hf : a.failMsg = none) :
    HybridStorage.set cbs k v q st =
      ⟨.ok (),
        { st with nativeAdapter := some { a with diskStore := storeSet a.diskStore k v } },
        [notifyListeners cbs 1 k (some v)
          { st with nativeAdapter := some { a with diskStore := storeSet a.diskStore k v } }]⟩ := by
  simp [HybridStorage.set, h, AdapterState.setDisk, adapterMutate_lift_eq, ha, hf]

theorem set_secure_none (cbs : CbBehavior) (k v : String) (q : Rat)
    (st : StorageState) (h : toScope q = .ok .Secure)
    (ha : st.nativeAdapter = none) :
    HybridStorage.set cbs k v q st = ⟨.error .adapterNotInitialized, st, []⟩ := by
  simp [HybridStorage.set, h, AdapterState.setSecure, adapterMutate_lift_eq, ha]

theorem set_secure_fail (cbs : CbBehavior) (k v : String) (q : Rat)
    (st : StorageState) (a : AdapterState) (m : String)
    (h : toScope q = .ok .Secure) (ha : st.nativeAdapter = some a)
    (hf : a.failMsg = some m) :
    HybridStorage.set cbs k v q st =
      ⟨.error (.wrapped ("NitroStorage: Secure set failed: " ++ m)), st, []⟩ := by
  simp [HybridStorage.set, h, AdapterState.setSecure, adapterMutate_lift_eq, ha, hf]

theorem get_memory (k : String) (q : Rat) (st : StorageState)
    (h : toScope q = .ok .Memory) :
    HybridStorage.get k q st = ⟨.ok (storeGet st.memoryStore k), st, []⟩ := by
  simp [HybridStorage.get, h]

theorem get_disk_none (k : String) (q : Rat) (st : StorageState)
    (h : toScope q = .ok .Disk) (ha : st.nativeAdapter = none) :
    HybridStorage.get k q st = ⟨.error .adapterNotInitialized, st, []⟩ := by
  simp [HybridStorage.get, h, AdapterState.getDisk, adapterQuery_lift_eq, ha]

theorem get_disk_fail (k : String) (q : Rat) (st : StorageState)
    (a : AdapterState) (m : String) (h : toScope q = .ok .Disk)
    (ha : st.nativeAdapter = some a) (hf : a.failMsg = some m) :
    HybridStorage.get k q st =
      ⟨.error (.wrapped ("NitroStorage: Disk get failed: " ++ m)), st, []⟩ := by
  simp [HybridStorage.get, h, AdapterState.getDisk, adapterQuery_lift_eq, ha, hf]

theorem get_disk_ok (k : String) (q : Rat) (st : StorageState) (a : AdapterState)
    (h : toScope q = .ok .Disk) (ha : st.nativeAdapter = some a)
    (hf : a.failMsg = none) :
    HybridStorage.get k q st = ⟨.ok (storeGet a.diskStore k), st, []⟩ := by
  simp [HybridStorage.get, h, AdapterState.getDisk, adapterQuery_lift_eq, ha, hf]

theorem get_secure_none (k : String) (q : Rat) (st : StorageState)
    (h : toScope q = .ok .Secure) (ha : st.nativeAdapter = none) :
    HybridStorage.get k q st = ⟨.error .adapterNotInitialized, st, []⟩ := by
  simp [HybridStorage.get, h, AdapterState.getSecure, adapterQuery_lift_eq, ha]

theorem get_secure_fail (k : String) (q : Rat) (st : StorageState)
    (a : AdapterState) (m : String) (h : toScope q = .ok .Secure)
    (ha : st.nativeAdapter = some a) (hf : a.failMsg = some m) :
    HybridStorage.get k q st =
      ⟨.error (.wrapped ("NitroStorage: Secure get failed: " ++ m)), st, []⟩ := by
  simp [HybridStorage.get, h, AdapterState.getSecure, adapterQuery_lift_eq, ha, hf]

theorem get_secure_ok (k : String) (q : Rat) (st : StorageState) (a : AdapterState)
    (h : toScope q = .ok .Secure) (ha : st.nativeAdapter = some a)
    (hf : a.failMsg = none) :
    HybridStorage.get k q st = ⟨.ok (storeGet a.secureStore k), st, []⟩ := by
  simp [HybridStorage.get, h, AdapterState.getSecure, adapterQuery_lift_eq, ha, hf]

theorem has_memory (k : String) (q : Rat) (st : StorageState)
    (h : toScope q = .ok .Memory) :
    HybridStorage.has k q st = ⟨.ok (storeGet st.memoryStore k).isSome, st, []⟩ := by
  simp [HybridStorage.has, h]

theorem has_disk_fail (k : String) (q : Rat) (st : StorageState)
    (a : AdapterState) (m : String) (h : toScope q = .ok .Disk)
    (ha : st.nativeAdapter = some a) (hf : a.failMsg = some m) :
    HybridStorage.has k q st = ⟨.error (.adapterRaw m), st, []⟩ := by
  simp [HybridStorage.has, h, AdapterState.hasDisk, adapterQueryNoCatch_lift_eq, ha, hf]

theorem has_secure_fail (k : String) (q : Rat) (st : StorageState)
    (a : AdapterState) (m : String) (h : toScope q = .ok .Secure)
    (ha : st.nativeAdapter = some a) (hf : a.failMsg = some m) :
    HybridStorage.has k q st = ⟨.error (.adapterRaw m), st, []⟩ := by
  simp [HybridStorage.has, h, AdapterState.hasSecure, adapterQueryNoCatch_lift_eq, ha, hf]

theorem getAllKeys_memory (q : Rat) (st : StorageState)
    (h : toScope q = .ok .Memory) :
    HybridStorage.getAllKeys q st = ⟨.ok (st.memoryStore.map Prod.fst), st, []⟩ := by
  simp [HybridStorage.getAllKeys, h]

theorem getAllKeys_disk_fail (q : Rat) (st : StorageState) (a : AdapterState)
    (m : String) (h : toScope q = .ok .Disk) (ha : st.nativeAdapter = some a)
    (hf : a.failMsg = some m) :
    HybridStorage.getAllKeys q st = ⟨.error (.adapterRaw m), st, []⟩ := by
  simp [HybridStorage.getAllKeys, h, AdapterState.getAllKeysDisk,
    adapterQueryNoCatch_lift_eq, ha, hf]

theorem getAllKeys_secure_fail (q : Rat) (st : StorageState) (a : AdapterState)
    (m : String) (h : toScope q = .ok .Secure) (ha : st.nativeAdapter = some a)
    (hf : a.failMsg = some m) :
    HybridStorage.getAllKeys q st = ⟨.error (.adapterRaw m), st, []⟩ := by
  simp [HybridStorage.getAllKeys, h, AdapterState.getAllKeysSecure,
    adapterQueryNoCatch_lift_eq, ha, hf]

theorem size_memory (q : Rat) (st : StorageState) (h : toScope q = .ok .Memory) :
    HybridStorage.size q st = ⟨.ok st.memoryStore.length, st, []⟩ := by
  simp [HybridStorage.size, h]

theorem size_disk_fail (q : Rat) (st : StorageState) (a : AdapterState)
    (m : String) (h : toScope q = .ok .Disk) (ha : st.nativeAdapter = some a)
    (hf : a.failMsg = some m) :
    HybridStorage.size q st = ⟨.error (.adapterRaw m), st, []⟩ := by
  simp [HybridStorage.size, h, AdapterState.sizeDisk, adapterQueryNoCatch_lift_eq, ha, hf]

theorem size_secure_fail (q : Rat) (st : StorageState) (a : AdapterState)
    (m : String) (h : toScope q = .ok .Secure) (ha : st.nativeAdapter = some a)
    (hf : a.failMsg = some m) :
    HybridStorage.size q st = ⟨.error (.adapterRaw m), st, []⟩ := by
  simp [HybridStorage.size, h, AdapterState.sizeSecure, adapterQueryNoCatch_lift_eq, ha, hf]

theorem setBatch_mismatch (cbs : CbBehavior) (keys values : List String)
    (q : Rat) (st : StorageState) (hL : keys.length ≠ values.length) :
    HybridStorage.setBatch cbs keys values q st = ⟨.error .sizeMismatch, st, []⟩ := by
  simp [HybridStorage.setBatch, hL]

theorem setBatch_memory (cbs : CbBehavior) (keys values : List String) (q : Rat)
    (st : StorageState) (hL : keys.length = values.length)
    (h : toScope q = .ok .Memory) :
    HybridStorage.setBatch cbs keys values q st =
      ⟨.ok (), { st with memoryStore := storeSetBatch st.memoryStore keys values },
        (keys.zip values).map (fun p => notifyListeners cbs 0 p.1 (some p.2)
          { st with memoryStore := storeSetBatch st.memoryStore keys values })⟩ := by
  simp [HybridStorage.setBatch, hL, h]

theorem setBatch_disk_none (cbs : CbBehavior) (keys values : List String)
    (q : Rat) (st : StorageState) (hL : keys.length = values.length)
    (h : toScope q = .ok .Disk) (ha : st.nativeAdapter = none) :
    HybridStorage.setBatch cbs keys values q st =
      ⟨.error .adapterNotInitialized, st, []⟩ := by
  simp [HybridStorage.setBatch, hL, h, AdapterState.setDiskBatch,
    adapterMutate_lift_eq, ha]

theorem setBatch_disk_fail (cbs : CbBehavior) (keys values : List String)
    (q : Rat) (st : StorageState) (a : AdapterState) (m : String)
    (hL : keys.length = values.length) (h : toScope q = .ok .Disk)
    (ha : st.nativeAdapter = some a) (hf : a.failMsg = some m) :
    HybridStorage.setBatch cbs keys values q st =
      ⟨.error (.wrapped ("NitroStorage: Disk setBatch failed: " ++ m)), st, []⟩ := by
  simp [HybridStorage.setBatch, hL, h, AdapterState.setDiskBatch,
    adapterMutate_lift_eq, ha, hf]

theorem setBatch_disk_ok (cbs : CbBehavior) (keys values : List String)
    (q : Rat) (st : StorageState) (a : AdapterState)
    (hL : keys.length = values.length) (h : toScope q = .ok .Disk)
    (ha : st.nativeAdapter = some a) (hf : a.failMsg = none) :
    HybridStorage.setBatch cbs keys values q st =
      ⟨.ok (),
        { st with nativeAdapter := some { a with
            diskStore := storeSetBatch a.diskStore keys values } },
        (keys.zip values).map (fun p => notifyListeners cbs 1 p.1 (some p.2)
          { st with nativeAdapter := some { a with
              diskStore := storeSetBatch a.diskStore keys values } })⟩ := by
  simp [HybridStorage.setBatch, hL, h, AdapterState.setDiskBatch,
    adapterMutate_lift_eq, ha, hf]

theorem setBatch_secure_none (cbs : CbBehavior) (keys values : List String)
    (q : Rat) (st : StorageState) (hL : keys.length = values.length)
    (h : toScope q = .ok .Secure) (ha : st.nativeAdapter = none) :
    HybridStorage.setBatch cbs keys values q st =
      ⟨.error .adapterNotInitialized, st, []⟩ := by
  simp [HybridStorage.setBatch, hL, h, AdapterState.setSecureBatch,
    adapterMutate_lift_eq, ha]

theorem setBatch_secure_fail (cbs : CbBehavior) (keys values : List String)
    (q : Rat) (st : StorageState) (a : AdapterState) (m : String)
    (hL : keys.length = values.length) (h : toScope q = .ok .Secure)
    (ha : st.nativeAdapter = some a) (hf : a.failMsg = some m) :
    HybridStorage.setBatch cbs keys values q st =
      ⟨.error (.wrapped ("NitroStorage: Secure setBatch failed: " ++ m)), st, []⟩ := by
  simp [HybridStorage.setBatch, hL, h, AdapterState.setSecureBatch,
    adapterMutate_lift_eq, ha, hf]

theorem setBatch_secure_ok (cbs : CbBehavior) (keys values : List String)
    (q : Rat) (st : StorageState) (a : AdapterState)
    (hL : keys.length = values.length) (h : toScope q = .ok .Secure)
    (ha : st.nativeAdapter = some a) (hf : a.failMsg = none) :
    HybridStorage.setBatch cbs keys values q st =
      ⟨.ok (),
        { st with nativeAdapter := some { a with
            secureStore := storeSetBatch a.secureStore keys values } },
        (keys.zip values).map (fun p => notifyListeners cbs 2 p.1 (some p.2)
          { st with nativeAdapter := some { a with
              secureStore := storeSetBatch a.secureStore keys values } })⟩ := by
  simp [HybridStorage.setBatch, hL, h, AdapterState.setSecureBatch,
    adapterMutate_lift_eq, ha, hf]

theorem getBatch_memory (keys : List String) (q : Rat) (st : StorageState)
    (h : toScope q = .ok .Memory) :
    HybridStorage.getBatch keys q st =
      ⟨.ok (keys.map (fun k => (storeGet st.memoryStore k).getD kBatchMissingSentinel)),
        st, []⟩ := by
  simp [HybridStorage.getBatch, h]

theorem getBatch_disk_none (keys : List String) (q : Rat) (st : StorageState)
    (h : toScope q = .ok .Disk) (ha : st.nativeAdapter = none) :
    HybridStorage.getBatch keys q st = ⟨.error .adapterNotInitialized, st, []⟩ := by
  simp [HybridStorage.getBatch, h, AdapterState.getDiskBatch, adapterQuery_lift_eq, ha]

theorem getBatch_disk_fail (keys : List String) (q : Rat) (st : StorageState)
    (a : AdapterState) (m : String) (h : toScope q = .ok .Disk)
    (ha : st.nativeAdapter = some a) (hf : a.failMsg = some m) :
    HybridStorage.getBatch keys q st =
      ⟨.error (.wrapped ("NitroStorage: Disk getBatch failed: " ++ m)), st, []⟩ := by
  simp [HybridStorage.getBatch, h, AdapterState.getDiskBatch, adapterQuery_lift_eq, ha, hf]

theorem getBatch_disk_ok (keys : List String) (q : Rat) (st : StorageState)
    (a : AdapterState) (h : toScope q = .ok .Disk)
    (ha : st.nativeAdapter = some a) (hf : a.failMsg = none) :
    HybridStorage.getBatch keys q st =
      ⟨.ok (keys.map (fun k => (storeGet a.diskStore k).getD kBatchMissingSentinel)),
        st, []⟩ := by
  simp [HybridStorage.getBatch, h, AdapterState.getDiskBatch, adapterQuery_lift_eq,
    ha, hf, List.map_map, Function.comp_def]

theorem getBatch_secure_none (keys : List String) (q : Rat) (st : StorageState)
    (h : toScope q = .ok .Secure) (ha : st.nativeAdapter = none) :
    HybridStorage.getBatch keys q st = ⟨.error .adapterNotInitialized, st, []⟩ := by
  simp [HybridStorage.getBatch, h, AdapterState.getSecureBatch, adapterQuery_lift_eq, ha]

theorem getBatch_secure_fail (keys : List String) (q : Rat) (st : StorageState)
    (a : AdapterState) (m : String) (h : toScope q = .ok .Secure)
    (ha : st.nativeAdapter = some a) (hf : a.failMsg = some m) :
    HybridStorage.getBatch keys q st =
      ⟨.error (.wrapped ("NitroStorage: Secure getBatch failed: " ++ m)), st, []⟩ := by
  simp [HybridStorage.getBatch, h, AdapterState.getSecureBatch, adapterQuery_lift_eq, ha, hf]

theorem getBatch_secure_ok (keys : List String) (q : Rat) (st : StorageState)
    (a : AdapterState) (h : toScope q = .ok .Secure)
    (ha : st.nativeAdapter = some a) (hf : a.failMsg = none) :
    HybridStorage.getBatch keys q st =
      ⟨.ok (keys.map (fun k => (storeGet a.secureStore k).getD kBatchMissingSentinel)),
        st, []⟩ := by
  simp [HybridStorage.getBatch, h, AdapterState.getSecureBatch, adapterQuery_lift_eq,
    ha, hf, List.map_map, Function.comp_def]

theorem removeBatch_memory (cbs : CbBehavior) (keys : List String) (q : Rat)
    (st : StorageState) (h : toScope q = .ok .Memory) :
    HybridStorage.removeBatch cbs keys q st =
      ⟨.ok (), { st with memoryStore := storeEraseBatch st.memoryStore keys },
        keys.map (fun k => notifyListeners cbs 0 k none
          { st with memoryStore := storeEraseBatch st.memoryStore keys })⟩ := by
  simp [HybridStorage.removeBatch, h]

theorem removeBatch_disk_none (cbs : CbBehavior) (keys : List String) (q : Rat)
    (st : StorageState) (h : toScope q = .ok .Disk)
    (ha : st.nativeAdapter = none) :
    HybridStorage.removeBatch cbs keys q st = ⟨.error .adapterNotInitialized, st, []⟩ := by
  simp [HybridStorage.removeBatch, h, AdapterState.deleteDiskBatch,
    adapterMutate_lift_eq, ha]

theorem removeBatch_disk_fail (cbs : CbBehavior) (keys : List String) (q : Rat)
    (st : StorageState) (a : AdapterState) (m : String)
    (h : toScope q = .ok .Disk) (ha : st.nativeAdapter = some a)
    (hf : a.failMsg = some m) :
    HybridStorage.removeBatch cbs keys q st =
      ⟨.error (.wrapped ("NitroStorage: Disk removeBatch failed: " ++ m)), st, []⟩ := by
  simp [HybridStorage.removeBatch, h, AdapterState.deleteDiskBatch,
    adapterMutate_lift_eq, ha, hf]

theorem removeBatch_disk_ok (cbs : CbBehavior) (keys : List String) (q : Rat)
    (st : StorageState) (a : AdapterState) (h : toScope q = .ok .Disk)
    (ha : st.nativeAdapter = some a) (hf : a.failMsg = none) :
    HybridStorage.removeBatch cbs keys q st =
      ⟨.ok (),
        { st with nativeAdapter := some { a with
            diskStore := storeEraseBatch a.diskStore keys } },
        keys.map (fun k => notifyListeners cbs 1 k none
          { st with nativeAdapter := some { a with
              diskStore := storeEraseBatch a.diskStore keys } })⟩ := by
  simp [HybridStorage.removeBatch, h, AdapterState.deleteDiskBatch,
    adapterMutate_lift_eq, ha, hf]

theorem removeBatch_secure_none (cbs : CbBehavior) (keys : List String) (q : Rat)
    (st : StorageState) (h : toScope q = .ok .Secure)
    (ha : st.nativeAdapter = none) :
    HybridStorage.removeBatch cbs keys q st = ⟨.error .adapterNotInitialized, st, []⟩ := by
  simp [HybridStorage.removeBatch, h, AdapterState.deleteSecureBatch,
    adapterMutate_lift_eq, ha]

theorem removeBatch_secure_fail (cbs : CbBehavior) (keys : List String) (q : Rat)
    (st : StorageState) (a : AdapterState) (m : String)
    (h : toScope q = .ok .Secure) (ha : st.nativeAdapter = some a)
    (hf : a.failMsg = some m) :
    HybridStorage.removeBatch cbs keys q st =
      ⟨.error (.wrapped ("NitroStorage: Secure removeBatch failed: " ++ m)), st, []⟩ := by
  simp [HybridStorage.removeBatch, h, AdapterState.deleteSecureBatch,
    adapterMutate_lift_eq, ha, hf]

theorem removeBatch_secure_ok (cbs : CbBehavior) (keys : List String) (q : Rat)
    (st : StorageState) (a : AdapterState) (h : toScope q = .ok .Secure)
    (ha : st.nativeAdapter = some a) (hf : a.failMsg = none) :
    HybridStorage.removeBatch cbs keys q st =
      ⟨.ok (),
        { st with nativeAdapter := some { a with
            secureStore := storeEraseBatch a.secureStore keys } },
        keys.map (fun k => notifyListeners cbs 2 k none
          { st with nativeAdapter := some { a with
              secureStore := storeEraseBatch a.secureStore keys } })⟩ := by
  simp [HybridStorage.removeBatch, h, AdapterState.deleteSecureBatch,
    adapterMutate_lift_eq, ha, hf]

theorem set_badscope (cbs : CbBehavior) (k v : String) (q : Rat)
    (st : StorageState) (e : Err) (h : toScope q = .error e) :
    HybridStorage.set cbs k v q st = ⟨.error e, st, []⟩ := by
  simp [HybridStorage.set, h]

theorem get_badscope (k : String) (q : Rat) (st : StorageState) (e : Err)
    (h : toScope q = .error e) :
    HybridStorage.get k q st = ⟨.error e, st, []⟩ := by
  simp [HybridStorage.get, h]

theorem remove_badscope (cbs : CbBehavior) (k : String) (q : Rat)
    (st : StorageState) (e : Err) (h : toScope q = .error e) :
    HybridStorage.remove cbs k q st = ⟨.error e, st, []⟩ := by
  simp [HybridStorage.remove, h]

theorem has_badscope (k : String) (q : Rat) (st : StorageState) (e : Err)
    (h : toScope q = .error e) :
    HybridStorage.has k q st = ⟨.error e, st, []⟩ := by
  simp [HybridStorage.has, h]

theorem getAllKeys_badscope (q : Rat) (st : StorageState) (e : Err)
    (h : toScope q = .error e) :
    HybridStorage.getAllKeys q st = ⟨.error e, st, []⟩ := by
  simp [HybridStorage.getAllKeys, h]

theorem size_badscope (q : Rat) (st : StorageState) (e : Err)
    (h : toScope q = .error e) :
    HybridStorage.size q st = ⟨.error e, st, []⟩ := by
  simp [HybridStorage.size, h]

theorem clear_badscope (cbs : CbBehavior) (q : Rat) (st : StorageState) (e : Err)
    (h : toScope q = .error e) :
    HybridStorage.clear cbs q st = ⟨.error e, st, []⟩ := by
  simp [HybridStorage.clear, h]

theorem setBatch_badscope (cbs : CbBehavior) (keys values : List String) (q : Rat)
    (st : StorageState) (e : Err) (hL : keys.length = values.length)
    (h : toScope q = .error e) :
    HybridStorage.setBatch cbs keys values q st = ⟨.error e, st, []⟩ := by
  simp [HybridStorage.setBatch, hL, h]

theorem getBatch_badscope (keys : List String) (q : Rat) (st : StorageState)
    (e : Err) (h : toScope q = .error e) :
    HybridStorage.getBatch keys q st = ⟨.error e, st, []⟩ := by
  simp [HybridStorage.getBatch, h]

theorem removeBatch_badscope (cbs : CbBehavior) (keys : List String) (q : Rat)
    (st : StorageState) (e : Err) (h : toScope q = .error e) :
    HybridStorage.removeBatch cbs keys q st = ⟨.error e, st, []⟩ := by
  simp [HybridStorage.removeBatch, h]

theorem remove_memory (cbs : CbBehavior) (k : String) (q : Rat) (st : StorageState)
    (h : toScope q = .ok .Memory) :
    HybridStorage.remove cbs k q st =
      ⟨.ok (), { st with memoryStore := storeErase st.memoryStore k },
        [notifyListeners cbs 0 k none
          { st with memoryStore := storeErase st.memoryStore k }]⟩ := by
  simp [HybridStorage.remove, h]

theorem remove_disk_none (cbs : CbBehavior) (k : String) (q : Rat)
    (st : StorageState) (h : toScope q = .ok .Disk)
    (ha : st.nativeAdapter = none) :
    HybridStorage.remove cbs k q st = ⟨.error .adapterNotInitialized, st, []⟩ := by
  simp [HybridStorage.remove, h, AdapterState.deleteDisk, adapterMutate_lift_eq, ha]

theorem remove_disk_fail (cbs : CbBehavior) (k : String) (q : Rat)
    (st : StorageState) (a : AdapterState) (m : String)
    (h : toScope q = .ok .Disk) (ha : st.nativeAdapter = some a)
    (hf : a.failMsg = some m) :
    HybridStorage.remove cbs k q st =
      ⟨.error (.wrapped ("NitroStorage: Disk delete failed: " ++ m)), st, []⟩ := by
  simp [HybridStorage.remove, h, AdapterState.deleteDisk, adapterMutate_lift_eq, ha, hf]

theorem remove_disk_ok (cbs : CbBehavior) (k : String) (q : Rat)
    (st : StorageState) (a : AdapterState)
    (h : toScope q = .ok .Disk) (ha : st.nativeAdapter = some a)
    (hf : a.failMsg = none) :
    HybridStorage.remove cbs k q st =
      ⟨.ok (),
        { st with nativeAdapter := some { a with diskStore := storeErase a.diskStore k } },
        [notifyListeners cbs 1 k none
          { st with nativeAdapter := some { a with diskStore := storeErase a.diskStore k } }]⟩ := by
  simp [HybridStorage.remove, h, AdapterState.deleteDisk, adapterMutate_lift_eq, ha, hf]

theorem remove_secure_none (cbs : CbBehavior) (k : String) (q : Rat)
    (st : StorageState) (h : toScope q = .ok .Secure)
    (ha : st.nativeAdapter = none) :
    HybridStorage.remove cbs k q st = ⟨.error .adapterNotInitialized, st, []⟩ := by
  simp [HybridStorage.remove, h, AdapterState.deleteSecure, adapterMutate_lift_eq, ha]

theorem remove_secure_fail (cbs : CbBehavior) (k : String) (q : Rat)
    (st : StorageState) (a : AdapterState) (m : String)
    (h : toScope q = .ok .Secure) (ha : st.nativeAdapter = some a)
    (hf : a.failMsg = some m) :
    HybridStorage.remove cbs k q st =
      ⟨.error (.wrapped ("NitroStorage: Secure delete failed: " ++ m)), st, []⟩ := by
  simp [HybridStorage.remove, h, AdapterState.deleteSecure, adapterMutate_lift_eq, ha, hf]

theorem remove_secure_ok (cbs : CbBehavior) (k : String) (q : Rat)
    (st : StorageState) (a : AdapterState)
    (h : toScope q = .ok .Secure) (ha : st.nativeAdapter = some a)
    (hf : a.failMsg = none) :
    HybridStorage.remove cbs k q st =
      ⟨.ok (),
        { st with nativeAdapter := some { a with secureStore := storeErase a.secureStore k } },
        [notifyListeners cbs 2 k none
          { st with nativeAdapter := some { a with secureStore := storeErase a.secureStore k } }]⟩ := by
  simp [HybridStorage.remove, h, AdapterState.deleteSecure, adapterMutate_lift_eq, ha, hf]

theorem clear_memory (cbs : CbBehavior) (q : Rat) (st : StorageState)
    (h : toScope q = .ok .Memory) :
    HybridStorage.clear cbs q st =
      ⟨.ok (), { st with memoryStore := [] },
        [notifyListeners cbs 0 "" none { st with memoryStore := [] }]⟩ := by
  simp [HybridStorage.clear, h]

theorem clear_disk_none (cbs : CbBehavior) (q : Rat) (st : StorageState)
    (h : toScope q = .ok .Disk) (ha : st.nativeAdapter = none) :
    HybridStorage.clear cbs q st = ⟨.error .adapterNotInitialized, st, []⟩ := by
  simp [HybridStorage.clear, h, AdapterState.clearDisk, adapterMutate_lift_eq, ha]

theorem clear_disk_fail (cbs : CbBehavior) (q : Rat) (st : StorageState)
    (a : AdapterState) (m : String) (h : toScope q = .ok .Disk)
    (ha : st.nativeAdapter = some a) (hf : a.failMsg = some m) :
    HybridStorage.clear cbs q st =
      ⟨.error (.wrapped ("NitroStorage: Disk clear failed: " ++ m)), st, []⟩ := by
  simp [HybridStorage.clear, h, AdapterState.clearDisk, adapterMutate_lift_eq, ha, hf]

theorem clear_disk_ok (cbs : CbBehavior) (q : Rat) (st : StorageState)
    (a : AdapterState) (h : toScope q = .ok .Disk)
    (ha : st.nativeAdapter = some a) (hf : a.failMsg = none) :
    HybridStorage.clear cbs q st =
      ⟨.ok (), { st with nativeAdapter := some { a with diskStore := [] } },
        [notifyListeners cbs 1 "" none
          { st with nativeAdapter := some { a with diskStore := [] } }]⟩ := by
  simp [HybridStorage.clear, h, AdapterState.clearDisk, adapterMutate_lift_eq, ha, hf]

theorem clear_secure_none (cbs : CbBehavior) (q : Rat) (st : StorageState)
    (h : toScope q = .ok .Secure) (ha : st.nativeAdapter = none) :
    HybridStorage.clear cbs q st = ⟨.error .adapterNotInitialized, st, []⟩ := by
  simp [HybridStorage.clear, h, AdapterState.clearSecure, adapterMutate_lift_eq, ha]

theorem clear_secure_fail (cbs : CbBehavior) (q : Rat) (st : StorageState)
    (a : AdapterState) (m : String) (h : toScope q = .ok .Secure)
    (ha : st.nativeAdapter = some a) (hf : a.failMsg = some m) :
    HybridStorage.clear cbs q st =
      ⟨.error (.wrapped ("NitroStorage: Secure clear failed: " ++ m)), st, []⟩ := by
  simp [HybridStorage.clear, h, AdapterState.clearSecure, adapterMutate_lift_eq, ha, hf]

theorem clear_secure_ok (cbs : CbBehavior) (q : Rat) (st : StorageState)
    (a : AdapterState) (h : toScope q = .ok .Secure)
    (ha : st.nativeAdapter = some a) (hf : a.failMsg = none) :
    HybridStorage.clear cbs q st =
      ⟨.ok (), { st with nativeAdapter := some { a with secureStore := [] } },
        [notifyListeners cbs 2 "" none
          { st with nativeAdapter := some { a with secureStore := [] } }]⟩ := by
  simp [HybridStorage.clear, h, AdapterState.clearSecure, adapterMutate_lift_eq, ha, hf]

theorem set_secure_ok (cbs : CbBehavior) (k v : String) (q : Rat)
    (st : StorageState) (a : AdapterState)
    (h : toScope q = .ok .Secure) (ha : st.nativeAdapter = some a)
    (hf : a.failMsg = none) :
    HybridStorage.set cbs k v q st =
      ⟨.ok (),
        { st with nativeAdapter := some { a with secureStore := storeSet a.secureStore k v } },
        [notifyListeners cbs 2 k (some v)
          { st with nativeAdapter := some { a with secureStore := storeSet a.secureStore k v } }]⟩ := by
  simp [HybridStorage.set, h, AdapterState.setSecure, adapterMutate_lift_eq, ha, hf]

theorem setSecureAccessControl_none (level : Rat) (st : StorageState)
    (ha : st.nativeAdapter = none) :
    HybridStorage.setSecureAccessControl level st =
      ⟨.error .adapterNotInitialized, st, []⟩ := by
  simp [HybridStorage.setSecureAccessControl, AdapterState.setSecureAccessControl,
    adapterMutateNoCatch_lift_eq, ha]

theorem setSecureAccessControl_fail (level : Rat) (st : StorageState)
    (a : AdapterState) (m : String) (ha : st.nativeAdapter = some a)
    (hf : a.failMsg = some m) :
    HybridStorage.setSecureAccessControl level st =
      ⟨.error (.adapterRaw m), st, []⟩ := by
  simp [HybridStorage.setSecureAccessControl, AdapterState.setSecureAccessControl,
    adapterMutateNoCatch_lift_eq, ha, hf]

theorem setSecureAccessControl_ok (level : Rat) (st : StorageState)
    (a : AdapterState) (ha : st.nativeAdapter = some a) (hf : a.failMsg = none) :
    HybridStorage.setSecureAccessControl level st =
      ⟨.ok (), { st with nativeAdapter := some { a with
        accessControlLevel := cppTruncToInt level } }, []⟩ := by
  simp [HybridStorage.setSecureAccessControl, AdapterState.setSecureAccessControl,
    adapterMutateNoCatch_lift_eq, ha, hf]

theorem setKeychainAccessGroup_none (g : String) (st : StorageState)
    (ha : st.nativeAdapter = none) :
    HybridStorage.setKeychainAccessGroup g st =
      ⟨.error .adapterNotInitialized, st, []⟩ := by
  simp [HybridStorage.setKeychainAccessGroup, AdapterState.setKeychainAccessGroup,
    adapterMutateNoCatch_lift_eq, ha]

theorem setKeychainAccessGroup_fail (g : String) (st : StorageState)
    (a : AdapterState) (m : String) (ha : st.nativeAdapter = some a)
    (hf : a.failMsg = some m) :
    HybridStorage.setKeychainAccessGroup g st = ⟨.error (.adapterRaw m), st, []⟩ := by
  simp [HybridStorage.setKeychainAccessGroup, AdapterState.setKeychainAccessGroup,
    adapterMutateNoCatch_lift_eq, ha, hf]

theorem setKeychainAccessGroup_ok (g : String) (st : StorageState)
    (a : AdapterState) (ha : st.nativeAdapter = some a) (hf : a.failMsg = none) :
    HybridStorage.setKeychainAccessGroup g st =
      ⟨.ok (), { st with nativeAdapter := some { a with
        keychainGroup := g } }, []⟩ := by
  simp [HybridStorage.setKeychainAccessGroup, AdapterState.setKeychainAccessGroup,
    adapterMutateNoCatch_lift_eq, ha, hf]

theorem setSecureBiometric_fail (cbs : CbBehavior) (k v : String)
    (st : StorageState) (a : AdapterState) (m : String)
    (ha : st.nativeAdapter = some a) (hf : a.failMsg = some m) :
    HybridStorage.setSecureBiometric cbs k v st =
      ⟨.error (.wrapped ("NitroStorage: Biometric set failed: " ++ m)), st, []⟩ := by
  simp [HybridStorage.setSecureBiometric, AdapterState.setSecureBiometric,
    adapterMutate_lift_eq, ha, hf]

theorem getSecureBiometric_fail (k : String) (st : StorageState)
    (a : AdapterState) (m : String) (ha : st.nativeAdapter = some a)
    (hf : a.failMsg = some m) :
    HybridStorage.getSecureBiometric k st =
      ⟨.error (.wrapped ("NitroStorage: Biometric get failed: " ++ m)), st, []⟩ := by
  simp [HybridStorage.getSecureBiometric, AdapterState.getSecureBiometric,
    adapterQuery_lift_eq, ha, hf]

theorem deleteSecureBiometric_fail (cbs : CbBehavior) (k : String)
    (st : StorageState) (a : AdapterState) (m : String)
    (ha : st.nativeAdapter = some a) (hf : a.failMsg = some m) :
    HybridStorage.deleteSecureBiometric cbs k st =
      ⟨.error (.wrapped ("NitroStorage: Biometric delete failed: " ++ m)), st, []⟩ := by
  simp [HybridStorage.deleteSecureBiometric, AdapterState.deleteSecureBiometric,
    adapterMutate_lift_eq, ha, hf]

theorem hasSecureBiometric_fail (k : String) (st : StorageState)
    (a : AdapterState) (m : String) (ha : st.nativeAdapter = some a)
    (hf : a.failMsg = some m) :
    HybridStorage.hasSecureBiometric k st = ⟨.error (.adapterRaw m), st, []⟩ := by
  simp [HybridStorage.hasSecureBiometric, AdapterState.hasSecureBiometric,
    adapterQueryNoCatch_lift_eq, ha, hf]

theorem clearSecureBiometric_fail (cbs : CbBehavior) (st : StorageState)
    (a : AdapterState) (m : String) (ha : st.nativeAdapter = some a)
    (hf : a.failMsg = some m) :
    HybridStorage.clearSecureBiometric cbs st =
      ⟨.error (.wrapped ("NitroStorage: Biometric clear failed: " ++ m)), st, []⟩ := by
  simp [HybridStorage.clearSecureBiometric, AdapterState.clearSecureBiometric,
    adapterMutate_lift_eq, ha, hf]

theorem status_set (cbs : CbBehavior) (k v : String) (q : Rat) (st : StorageState) :
    adapterStatus (HybridStorage.set cbs k v q st).state = adapterStatus st := by
  cases htc : toScope q with
  | error e => simp [set_badscope _ _ _ _ _ _ htc]
  | ok s =>
      cases s with
      | Memory => simp [set_memory _ _ _ _ _ htc, adapterStatus]
      | Disk =>
          cases ha : st.nativeAdapter with
          | none => simp [set_disk_none _ _ _ _ _ htc ha]
          | some a =>
              cases hf : a.failMsg with
              | none => simp [set_disk_ok _ _ _ _ _ _ htc ha hf, adapterStatus, ha, hf]
              | some m => simp [set_disk_fail _ _ _ _ _ _ _ htc ha hf]
      | Secure =>
          cases ha : st.nativeAdapter with
          | none => simp [set_secure_none _ _ _ _ _ htc ha]
          | some a =>
              cases hf : a.failMsg with
              | none => simp [set_secure_ok _ _ _ _ _ _ htc ha hf, adapterStatus, ha, hf]
              | some m => simp [set_secure_fail _ _ _ _ _ _ _ htc ha hf]

theorem status_remove (cbs : CbBehavior) (k : String) (q : Rat) (st : StorageState) :
    adapterStatus (HybridStorage.remove cbs k q st).state = adapterStatus st := by
  cases htc : toScope q with
  | error e => simp [remove_badscope _ _ _ _ _ htc]
  | ok s =>
      cases s with
      | Memory => simp [remove_memory _ _ _ _ htc, adapterStatus]
      | Disk =>
          cases ha : st.nativeAdapter with
          | none => simp [remove_disk_none _ _ _ _ htc ha]
          | some a =>
              cases hf : a.failMsg with
              | none => simp [remove_disk_ok _ _ _ _ _ htc ha hf, adapterStatus, ha, hf]
              | some m => simp [remove_disk_fail _ _ _ _ _ _ htc ha hf]
      | Secure =>
          cases ha : st.nativeAdapter with
          | none => simp [remove_secure_none _ _ _ _ htc ha]
          | some a =>
              cases hf : a.failMsg with
              | none => simp [remove_secure_ok _ _ _ _ _ htc ha hf, adapterStatus, ha, hf]
              | some m => simp [remove_secure_fail _ _ _ _ _ _ htc ha hf]

theorem status_clear (cbs : CbBehavior) (q : Rat) (st : StorageState) :
    adapterStatus (HybridStorage.clear cbs q st).state = adapterStatus st := by
  cases htc : toScope q with
  | error e => simp [clear_badscope _ _ _ _ htc]
  | ok s =>
      cases s with
      | Memory => simp [clear_memory _ _ _ htc, adapterStatus]
      | Disk =>
          cases ha : st.nativeAdapter with
          | none => simp [clear_disk_none _ _ _ htc ha]
          | some a =>
              cases hf : a.failMsg with
              | none => simp [clear_disk_ok _ _ _ _ htc ha hf, adapterStatus, ha, hf]
              | some m => simp [clear_disk_fail _ _ _ _ _ htc ha hf]
      | Secure =>
          cases ha : st.nativeAdapter with
          | none => simp [clear_secure_none _ _ _ htc ha]
          | some a =>
              cases hf : a.failMsg with
              | none => simp [clear_secure_ok _ _ _ _ htc ha hf, adapterStatus, ha, hf]
              | some m => simp [clear_secure_fail _ _ _ _ _ htc ha hf]

theorem status_setBatch (cbs : CbBehavior) (keys values : List String) (q : Rat)
    (st : StorageState) :
    adapterStatus (HybridStorage.setBatch cbs keys values q st).state = adapterStatus st := by
  by_cases hL : keys.length = values.length
  · cases htc : toScope q with
    | error e => simp [setBatch_badscope _ _ _ _ _ _ hL htc]
    | ok s =>
        cases s with
        | Memory => simp [setBatch_memory _ _ _ _ _ hL htc, adapterStatus]
        | Disk =>
            cases ha : st.nativeAdapter with
            | none => simp [setBatch_disk_none _ _ _ _ _ hL htc ha]
            | some a =>
                cases hf : a.failMsg with
                | none =>
                    simp [setBatch_disk_ok _ _ _ _ _ _ hL htc ha hf, adapterStatus, ha, hf]
                | some m => simp [setBatch_disk_fail _ _ _ _ _ _ _ hL htc ha hf]
        | Secure =>
            cases ha : st.nativeAdapter with
            | none => simp [setBatch_secure_none _ _ _ _ _ hL htc ha]
            | some a =>
                cases hf : a.failMsg with
                | none =>
                    simp [setBatch_secure_ok _ _ _ _ _ _ hL htc ha hf, adapterStatus, ha, hf]
                | some m => simp [setBatch_secure_fail _ _ _ _ _ _ _ hL htc ha hf]
  · simp [setBatch_mismatch _ _ _ _ _ hL]

theorem status_removeBatch (cbs : CbBehavior) (keys : List String) (q : Rat)
    (st : StorageState) :
    adapterStatus (HybridStorage.removeBatch cbs keys q st).state = adapterStatus st := by
  cases htc : toScope q with
  | error e => simp [removeBatch_badscope _ _ _ _ _ htc]
  | ok s =>
      cases s with
      | Memory => simp [removeBatch_memory _ _ _ _ htc, adapterStatus]
      | Disk =>
          cases ha : st.nativeAdapter with
          | none => simp [removeBatch_disk_none _ _ _ _ htc ha]
          | some a =>
              cases hf : a.failMsg with
              | none =>
                  simp [removeBatch_disk_ok _ _ _ _ _ htc ha hf, adapterStatus, ha, hf]
              | some m => simp [removeBatch_disk_fail _ _ _ _ _ _ htc ha hf]
      | Secure =>
          cases ha : st.nativeAdapter with
          | none => simp [removeBatch_secure_none _ _ _ _ htc ha]
          | some a =>
              cases hf : a.failMsg with
              | none =>
                  simp [removeBatch_secure_ok _ _ _ _ _ htc ha hf, adapterStatus, ha, hf]
              | some m => simp [removeBatch_secure_fail _ _ _ _ _ _ htc ha hf]

theorem status_runOp (cbs : CbBehavior) (st : StorageState) (op : Op) :
    adapterStatus (runOp cbs st op).state = adapterStatus st := by
  cases op with
  | opSet k v q => exact status_set cbs k v q st
  | opRemove k q => exact status_remove cbs k q st
  | opClear q => exact status_clear cbs q st
  | opSetBatch ks vs q => exact status_setBatch cbs ks vs q st
  | opRemoveBatch ks q => exact status_removeBatch cbs ks q st

theorem status_runTrace (cbs : CbBehavior) (st : StorageState) (t : List Op) :
    adapterStatus (runTrace cbs st t) = adapterStatus st := by
  induction t generalizing st with
  | nil => rfl
  | cons op rest ih => rw [runTrace, ih, status_runOp]

theorem adapterStatus_some_none_iff (st : StorageState) :
    adapterStatus st = some none ↔
      ∃ a, st.nativeAdapter = some a ∧ a.failMsg = none := by
  cases ha : st.nativeAdapter <;> simp [adapterStatus, ha]

theorem scopeReadable_of_status_eq (st1 st2 : StorageState) (s : Scope)
    (h : adapterStatus st1 = adapterStatus st2) :
    scopeReadable st1 s ↔ scopeReadable st2 s := by
  cases s <;> simp [scopeReadable, h]

theorem preserve_set (cbs : CbBehavior) (k2 v2 : String) (q2 : Rat)
    (st : StorageState) (k : String) (s : Scope)
    (hw : writesKey k s (Op.opSet k2 v2 q2) = false) :
    lookupScope (HybridStorage.set cbs k2 v2 q2 st).state k s = lookupScope st k s := by
  cases htc : toScope q2 with
  | error e => simp [set_badscope _ _ _ _ _ _ htc]
  | ok s2 =>
      have hw2 : ¬(s2 = s ∧ k2 = k) := by simpa [writesKey, htc] using hw
      cases s2 with
      | Memory =>
          rw [set_memory _ _ _ _ _ htc]
          cases s with
          | Memory =>
              have hk : k2 ≠ k := fun he => hw2 ⟨rfl, he⟩
              simp [lookupScope, storeGet_storeSet_ne _ _ _ _ hk]
          | Disk => simp [lookupScope]
          | Secure => simp [lookupScope]
      | Disk =>
          cases ha : st.nativeAdapter with
          | none => simp [set_disk_none _ _ _ _ _ htc ha]
          | some a =>
              cases hf : a.failMsg with
              | some m => simp [set_disk_fail _ _ _ _ _ _ _ htc ha hf]
              | none =>
                  rw [set_disk_ok _ _ _ _ _ _ htc ha hf]
                  cases s with
                  | Memory => simp [lookupScope]
                  | Disk =>
                      have hk : k2 ≠ k := fun he => hw2 ⟨rfl, he⟩
                      simp [lookupScope, ha, storeGet_storeSet_ne _ _ _ _ hk]
                  | Secure => simp [lookupScope, ha]
      | Secure =>
          cases ha : st.nativeAdapter with
          | none => simp [set_secure_none _ _ _ _ _ htc ha]
          | some a =>
              cases hf : a.failMsg with
              | some m => simp [set_secure_fail _ _ _ _ _ _ _ htc ha hf]
              | none =>
                  rw [set_secure_ok _ _ _ _ _ _ htc ha hf]
                  cases s with
                  | Memory => simp [lookupScope]
                  | Disk => simp [lookupScope, ha]
                  | Secure =>
                      have hk : k2 ≠ k := fun he => hw2 ⟨rfl, he⟩
                      simp [lookupScope, ha, storeGet_storeSet_ne _ _ _ _ hk]

theorem preserve_remove (cbs : CbBehavior) (k2 : String) (q2 : Rat)
    (st : StorageState) (k : String) (s : Scope)
    (hw : writesKey k s (Op.opRemove k2 q2) = false) :
    lookupScope (HybridStorage.remove cbs k2 q2 st).state k s = lookupScope st k s := by
  cases htc : toScope q2 with
  | error e => simp [remove_badscope _ _ _ _ _ htc]
  | ok s2 =>
      have hw2 : ¬(s2 = s ∧ k2 = k) := by simpa [writesKey, htc] using hw
      cases s2 with
      | Memory =>
          rw [remove_memory _ _ _ _ htc]
          cases s with
          | Memory =>
              have hk : k2 ≠ k := fun he => hw2 ⟨rfl, he⟩
              simp [lookupScope, storeGet_storeErase_ne _ _ _ hk]
          | Disk => simp [lookupScope]
          | Secure => simp [lookupScope]
      | Disk =>
          cases ha : st.nativeAdapter with
          | none => simp [remove_disk_none _ _ _ _ htc ha]
          | some a =>
              cases hf : a.failMsg with
              | some m => simp [remove_disk_fail _ _ _ _ _ _ htc ha hf]
              | none =>
                  rw [remove_disk_ok _ _ _ _ _ htc ha hf]
                  cases s with
                  | Memory => simp [lookupScope]
                  | Disk =>
                      have hk : k2 ≠ k := fun he => hw2 ⟨rfl, he⟩
                      simp [lookupScope, ha, storeGet_storeErase_ne _ _ _ hk]
                  | Secure => simp [lookupScope, ha]
      | Secure =>
          cases ha : st.nativeAdapter with
          | none => simp [remove_secure_none _ _ _ _ htc ha]
          | some a =>
              cases hf : a.failMsg with
              | some m => simp [remove_secure_fail _ _ _ _ _ _ htc ha hf]
              | none =>
                  rw [remove_secure_ok _ _ _ _ _ htc ha hf]
                  cases s with
                  | Memory => simp [lookupScope]
                  | Disk => simp [lookupScope, ha]
                  | Secure =>
                      have hk : k2 ≠ k := fun he => hw2 ⟨rfl, he⟩
                      simp [lookupScope, ha, storeGet_storeErase_ne _ _ _ hk]

theorem preserve_clear (cbs : CbBehavior) (q2 : Rat) (st : StorageState)
    (k : String) (s : Scope) (hw : writesKey k s (Op.opClear q2) = false) :
    lookupScope (HybridStorage.clear cbs q2 st).state k s = lookupScope st k s := by
  cases htc : toScope q2 with
  | error e => simp [clear_badscope _ _ _ _ htc]
  | ok s2 =>
      have hw2 : ¬(s2 = s) := by simpa [writesKey, htc] using hw
      cases s2 with
      | Memory =>
          rw [clear_memory _ _ _ htc]
          cases s with
          | Memory => exact absurd rfl hw2
          | Disk => simp [lookupScope]
          | Secure => simp [lookupScope]
      | Disk =>
          cases ha : st.nativeAdapter with
          | none => simp [clear_disk_none _ _ _ htc ha]
          | some a =>
              cases hf : a.failMsg with
              | some m => simp [clear_disk_fail _ _ _ _ _ htc ha hf]
              | none =>
                  rw [clear_disk_ok _ _ _ _ htc ha hf]
                  cases s with
                  | Memory => simp [lookupScope]
                  | Disk => exact absurd rfl hw2
                  | Secure => simp [lookupScope, ha]
      | Secure =>
          cases ha : st.nativeAdapter with
          | none => simp [clear_secure_none _ _ _ htc ha]
          | some a =>
              cases hf : a.failMsg with
              | some m => simp [clear_secure_fail _ _ _ _ _ htc ha hf]
              | none =>
                  rw [clear_secure_ok _ _ _ _ htc ha hf]
                  cases s with
                  | Memory => simp [lookupScope]
                  | Disk => simp [lookupScope, ha]
                  | Secure => exact absurd rfl hw2

theorem preserve_setBatch (cbs : CbBehavior) (ks vs : List String) (q2 : Rat)
    (st : StorageState) (k : String) (s : Scope)
    (hw : writesKey k s (Op.opSetBatch ks vs q2) = false) :
    lookupScope (HybridStorage.setBatch cbs ks vs q2 st).state k s = lookupScope st k s := by
  by_cases hL : ks.length = vs.length
  · cases htc : toScope q2 with
    | error e => simp [setBatch_badscope _ _ _ _ _ _ hL htc]
    | ok s2 =>
        have hw2 : ¬(s2 = s ∧ k ∈ ks) := by simpa [writesKey, htc] using hw
        cases s2 with
        | Memory =>
            rw [setBatch_memory _ _ _ _ _ hL htc]
            cases s with
            | Memory =>
                have hk : k ∉ ks := fun he => hw2 ⟨rfl, he⟩
                simp [lookupScope, storeGet_storeSetBatch_not_mem _ _ _ _ hk]
            | Disk => simp [lookupScope]
            | Secure => simp [lookupScope]
        | Disk =>
            cases ha : st.nativeAdapter with
            | none => simp [setBatch_disk_none _ _ _ _ _ hL htc ha]
            | some a =>
                cases hf : a.failMsg with
                | some m => simp [setBatch_disk_fail _ _ _ _ _ _ _ hL htc ha hf]
                | none =>
                    rw [setBatch_disk_ok _ _ _ _ _ _ hL htc ha hf]
                    cases s with
                    | Memory => simp [lookupScope]
                    | Disk =>
                        have hk : k ∉ ks := fun he => hw2 ⟨rfl, he⟩
                        simp [lookupScope, ha, storeGet_storeSetBatch_not_mem _ _ _ _ hk]
                    | Secure => simp [lookupScope, ha]
        | Secure =>
            cases ha : st.nativeAdapter with
            | none => simp [setBatch_secure_none _ _ _ _ _ hL htc ha]
            | some a =>
                cases hf : a.failMsg with
                | some m => simp [setBatch_secure_fail _ _ _ _ _ _ _ hL htc ha hf]
                | none =>
                    rw [setBatch_secure_ok _ _ _ _ _ _ hL htc ha hf]
                    cases s with
                    | Memory => simp [lookupScope]
                    | Disk => simp [lookupScope, ha]
                    | Secure =>
                        have hk : k ∉ ks := fun he => hw2 ⟨rfl, he⟩
                        simp [lookupScope, ha, storeGet_storeSetBatch_not_mem _ _ _ _ hk]
  · simp [setBatch_mismatch _ _ _ _ _ hL]

theorem preserve_removeBatch (cbs : CbBehavior) (ks : List String) (q2 : Rat)
    (st : StorageState) (k : String) (s : Scope)
    (hw : writesKey k s (Op.opRemoveBatch ks q2) = false) :
    lookupScope (HybridStorage.removeBatch cbs ks q2 st).state k s = lookupScope st k s := by
  cases htc : toScope q2 with
  | error e => simp [removeBatch_badscope _ _ _ _ _ htc]
  | ok s2 =>
      have hw2 : ¬(s2 = s ∧ k ∈ ks) := by simpa [writesKey, htc] using hw
      cases s2 with
      | Memory =>
          rw [removeBatch_memory _ _ _ _ htc]
          cases s with
          | Memory =>
              have hk : k ∉ ks := fun he => hw2 ⟨rfl, he⟩
              simp [lookupScope, storeGet_storeEraseBatch_not_mem _ _ _ hk]
          | Disk => simp [lookupScope]
          | Secure => simp [lookupScope]
      | Disk =>
          cases ha : st.nativeAdapter with
          | none => simp [removeBatch_disk_none _ _ _ _ htc ha]
          | some a =>
              cases hf : a.failMsg with
              | some m => simp [removeBatch_disk_fail _ _ _ _ _ _ htc ha hf]
              | none =>
                  rw [removeBatch_disk_ok _ _ _ _ _ htc ha hf]
                  cases s with
                  | Memory => simp [lookupScope]
                  | Disk =>
                      have hk : k ∉ ks := fun he => hw2 ⟨rfl, he⟩
                      simp [lookupScope, ha, storeGet_storeEraseBatch_not_mem _ _ _ hk]
                  | Secure => simp [lookupScope, ha]
      | Secure =>
          cases ha : st.nativeAdapter with
          | none => simp [removeBatch_secure_none _ _ _ _ htc ha]
          | some a =>
              cases hf : a.failMsg with
              | some m => simp [removeBatch_secure_fail _ _ _ _ _ _ htc ha hf]
              | none =>
                  rw [removeBatch_secure_ok _ _ _ _ _ htc ha hf]
                  cases s with
                  | Memory => simp [lookupScope]
                  | Disk => simp [lookupScope, ha]
                  | Secure =>
                      have hk : k ∉ ks := fun he => hw2 ⟨rfl, he⟩
                      simp [lookupScope, ha, storeGet_storeEraseBatch_not_mem _ _ _ hk]

theorem preserve_runOp (cbs : CbBehavior) (st : StorageState) (op : Op)
    (k : String) (s : Scope) (hw : writesKey k s op = false) :
    lookupScope (runOp cbs st op).state k s = lookupScope st k s := by
  cases op with
  | opSet k2 v2 q2 => exact preserve_set cbs k2 v2 q2 st k s hw
  | opRemove k2 q2 => exact preserve_remove cbs k2 q2 st k s hw
  | opClear q2 => exact preserve_clear cbs q2 st k s hw
  | opSetBatch ks vs q2 => exact preserve_setBatch cbs ks vs q2 st k s hw
  | opRemoveBatch ks q2 => exact preserve_removeBatch cbs ks q2 st k s hw

theorem preserve_runTrace (cbs : CbBehavior) (st : StorageState) (t : List Op)
    (k : String) (s : Scope) (hw : ∀ op ∈ t, writesKey k s op = false) :
    lookupScope (runTrace cbs st t) k s = lookupScope st k s := by
  induction t generalizing st with
  | nil => rfl
  | cons op rest ih =>
      rw [runTrace, ih _ (fun o ho => hw o (List.mem_cons_of_mem _ ho)),
        preserve_runOp cbs st op k s (hw op (List.mem_cons_self _ _))]

theorem get_eq_lookup (k : String) (q : Rat) (st : StorageState) (s : Scope)
    (h : toScope q = .ok s) (hr : scopeReadable st s) :
    (HybridStorage.get k q st).res = .ok (lookupScope st k s) := by
  cases s with
  | Memory => simp [get_memory _ _ _ h, lookupScope]
  | Disk =>
      obtain ⟨a, ha, hf⟩ := (adapterStatus_some_none_iff st).1 hr
      simp [get_disk_ok _ _ _ _ h ha hf, lookupScope, ha]
  | Secure =>
      obtain ⟨a, ha, hf⟩ := (adapterStatus_some_none_iff st).1 hr
      simp [get_secure_ok _ _ _ _ h ha hf, lookupScope, ha]

theorem set_ok_char (cbs : CbBehavior) (k v : String) (q : Rat)
    (st : StorageState) (s : Scope) (h : toScope q = .ok s)
    (hok : (HybridStorage.set cbs k v q st).res = .ok ()) :
    lookupScope (HybridStorage.set cbs k v q st).state k s = some v ∧
      scopeReadable st s := by
  cases s with
  | Memory =>
      refine ⟨?_, trivial⟩
      simp [set_memory _ _ _ _ _ h, lookupScope, storeGet_storeSet_self]
  | Disk =>
      cases ha : st.nativeAdapter with
      | none => simp [set_disk_none _ _ _ _ _ h ha] at hok
      | some a =>
          cases hf : a.failMsg with
          | some m => simp [set_disk_fail _ _ _ _ _ _ _ h ha hf] at hok
          | none =>
              refine ⟨?_, (adapterStatus_some_none_iff st).2 ⟨a, ha, hf⟩⟩
              simp [set_disk_ok _ _ _ _ _ _ h ha hf, lookupScope, storeGet_storeSet_self]
  | Secure =>
      cases ha : st.nativeAdapter with
      | none => simp [set_secure_none _ _ _ _ _ h ha] at hok
      | some a =>
          cases hf : a.failMsg with
          | some m => simp [set_secure_fail _ _ _ _ _ _ _ h ha hf] at hok
          | none =>
              refine ⟨?_, (adapterStatus_some_none_iff st).2 ⟨a, ha, hf⟩⟩
              simp [set_secure_ok _ _ _ _ _ _ h ha hf, lookupScope, storeGet_storeSet_self]

theorem remove_ok_char (cbs : CbBehavior) (k : String) (q : Rat)
    (st : StorageState) (s : Scope) (h : toScope q = .ok s)
    (hr : scopeReadable st s) :
    (HybridStorage.remove cbs k q st).res = .ok () ∧
      lookupScope (HybridStorage.remove cbs k q st).state k s = none := by
  cases s with
  | Memory =>
      simp [remove_memory _ _ _ _ h, lookupScope, storeGet_storeErase_self]
  | Disk =>
      obtain ⟨a, ha, hf⟩ := (adapterStatus_some_none_iff st).1 hr
      simp [remove_disk_ok _ _ _ _ _ h ha hf, lookupScope, storeGet_storeErase_self]
  | Secure =>
      obtain ⟨a, ha, hf⟩ := (adapterStatus_some_none_iff st).1 hr
      simp [remove_secure_ok _ _ _ _ _ h ha hf, lookupScope, storeGet_storeErase_self]

theorem clear_ok_char (cbs : CbBehavior) (q : Rat) (st : StorageState)
    (k : String) (s : Scope) (h : toScope q = .ok s) (hr : scopeReadable st s) :
    (HybridStorage.clear cbs q st).res = .ok () ∧
      lookupScope (HybridStorage.clear cbs q st).state k s = none := by
  cases s with
  | Memory => simp [clear_memory _ _ _ h, lookupScope, storeGet]
  | Disk =>
      obtain ⟨a, ha, hf⟩ := (adapterStatus_some_none_iff st).1 hr
      simp [clear_disk_ok _ _ _ _ h ha hf, lookupScope, storeGet]
  | Secure =>
      obtain ⟨a, ha, hf⟩ := (adapterStatus_some_none_iff st).1 hr
      simp [clear_secure_ok _ _ _ _ h ha hf, lookupScope, storeGet]

/-- C1: for every valid scope `s` and key `k`, after `set(k, v, s)`
succeeds, `get(k, s)` returns `v`; it keeps returning `v` across any
sequence of further operations that do not write `k` in scope `s`; and
after a subsequent `remove(k, s)` or `clear(s)` it returns no value. -/
theorem c1_set_get_until_remove_or_clear
    (cbs : CbBehavior) (st : StorageState) (k v : String) (q : Rat) (s : Scope)
    (htc : toScope q = .ok s)
    (hok : (HybridStorage.set cbs k v q st).res = .ok ()) :
    (HybridStorage.get k q (HybridStorage.set cbs k v q st).state).res = .ok (some v) ∧
    ∀ t : List Op, (∀ op ∈ t, writesKey k s op = false) →
      (HybridStorage.get k q
        (runTrace cbs (HybridStorage.set cbs k v q st).state t)).res = .ok (some v) ∧
      (HybridStorage.remove cbs k q
        (runTrace cbs (HybridStorage.set cbs k v q st).state t)).res = .ok () ∧
      (HybridStorage.get k q (HybridStorage.remove cbs k q
        (runTrace cbs (HybridStorage.set cbs k v q st).state t)).state).res = .ok none ∧
      (HybridStorage.clear cbs q
        (runTrace cbs (HybridStorage.set cbs k v q st).state t)).res = .ok () ∧
      (HybridStorage.get k q (HybridStorage.clear cbs q
        (runTrace cbs (HybridStorage.set cbs k v q st).state t)).state).res = .ok none := by
  obtain ⟨hlk, hrd⟩ := set_ok_char cbs k v q st s htc hok
  have hs1 : scopeReadable (HybridStorage.set cbs k v q st).state s :=
    (scopeReadable_of_status_eq _ _ s (status_set cbs k v q st)).2 hrd
  constructor
  · rw [get_eq_lookup k q _ s htc hs1, hlk]
  · intro t ht
    have hs2 : scopeReadable (runTrace cbs (HybridStorage.set cbs k v q st).state t) s :=
      (scopeReadable_of_status_eq _ _ s (status_runTrace cbs _ t)).2 hs1
    have hlk2 : lookupScope (runTrace cbs (HybridStorage.set cbs k v q st).state t) k s
        = some v := by
      rw [preserve_runTrace cbs _ t k s ht, hlk]
    refine ⟨?_, ?_, ?_, ?_, ?_⟩
    · rw [get_eq_lookup k q _ s htc hs2, hlk2]
    · exact (remove_ok_char cbs k q _ s htc hs2).1
    · have h3 := (remove_ok_char cbs k q _ s htc hs2).2
      have hs3 : scopeReadable (HybridStorage.remove cbs k q
          (runTrace cbs (HybridStorage.set cbs k v q st).state t)).state s :=
        (scopeReadable_of_status_eq _ _ s (status_remove cbs k q _)).2 hs2
      rw [get_eq_lookup k q _ s htc hs3, h3]
    · exact (clear_ok_char cbs q _ k s htc hs2).1
    · have h3 := (clear_ok_char cbs q _ k s htc hs2).2
      have hs3 : scopeReadable (HybridStorage.clear cbs q
          (runTrace cbs (HybridStorage.set cbs k v q st).state t)).state s :=
        (scopeReadable_of_status_eq _ _ s (status_clear cbs q _)).2 hs2
      rw [get_eq_lookup k q _ s htc hs3, h3]

/-- Witness for C1 at a concrete input: Memory scope, `set("a","1")`,
an interleaved `set("b","2")` that does not touch `"a"`, then the
remove/clear outcomes. -/
theorem c1_witness :
    (HybridStorage.get "a" 0 (HybridStorage.set cbs0 "a" "1" 0 st0).state).res
      = .ok (some "1") ∧
    (HybridStorage.get "a" 0 (runTrace cbs0 (HybridStorage.set cbs0 "a" "1" 0 st0).state
      [Op.opSet "b" "2" 0])).res = .ok (some "1") ∧
    (HybridStorage.get "a" 0 (HybridStorage.remove cbs0 "a" 0
      (runTrace cbs0 (HybridStorage.set cbs0 "a" "1" 0 st0).state
        [Op.opSet "b" "2" 0])).state).res = .ok none ∧
    (HybridStorage.get "a" 0 (HybridStorage.clear cbs0 0
      (runTrace cbs0 (HybridStorage.set cbs0 "a" "1" 0 st0).state
        [Op.opSet "b" "2" 0])).state).res = .ok none := by
  have h := c1_set_get_until_remove_or_clear cbs0 st0 "a" "1" 0 .Memory rfl rfl
  have h2 := h.2 [Op.opSet "b" "2" 0] (by decide)
  exact ⟨h.1, h2.1, h2.2.2.1, h2.2.2.2.2⟩

/-- C2: a successful `set(k, v, s)` emits exactly one notification,
carrying `(k, v)` on scope channel `s`, delivered to precisely the
listeners registered on that channel before the callbacks run; a failed
`set` emits no notification. -/
theorem c2_set_notification (cbs : CbBehavior) (k v : String) (q : Rat)
    (st : StorageState) :
    (∀ s, toScope q = .ok s → (HybridStorage.set cbs k v q st).res = .ok () →
      (HybridStorage.set cbs k v q st).events =
        [⟨scopeToInt s, k, some v, (st.listeners (scopeToInt s)).map Listener.id⟩]) ∧
    ((HybridStorage.set cbs k v q st).res ≠ .ok () →
      (HybridStorage.set cbs k v q st).events = []) := by
  constructor
  · intro s hs hok
    cases s with
    | Memory =>
        simp [set_memory _ _ _ _ _ hs, notifyListeners, runSnapshot_ids, scopeToInt]
    | Disk =>
        cases ha : st.nativeAdapter with
        | none => simp [set_disk_none _ _ _ _ _ hs ha] at hok
        | some a =>
            cases hf : a.failMsg with
            | some m => simp [set_disk_fail _ _ _ _ _ _ _ hs ha hf] at hok
            | none =>
                simp [set_disk_ok _ _ _ _ _ _ hs ha hf, notifyListeners,
                  runSnapshot_ids, scopeToInt]
    | Secure =>
        cases ha : st.nativeAdapter with
        | none => simp [set_secure_none _ _ _ _ _ hs ha] at hok
        | some a =>
            cases hf : a.failMsg with
            | some m => simp [set_secure_fail _ _ _ _ _ _ _ hs ha hf] at hok
            | none =>
                simp [set_secure_ok _ _ _ _ _ _ hs ha hf, notifyListeners,
                  runSnapshot_ids, scopeToInt]
  · intro hne
    cases htc : toScope q with
    | error e => simp [set_badscope _ _ _ _ _ _ htc]
    | ok s =>
        cases s with
        | Memory => simp [set_memory _ _ _ _ _ htc] at hne
        | Disk =>
            cases ha : st.nativeAdapter with
            | none => simp [set_disk_none _ _ _ _ _ htc ha]
            | some a =>
                cases hf : a.failMsg with
                | some m => simp [set_disk_fail _ _ _ _ _ _ _ htc ha hf]
                | none => simp [set_disk_ok _ _ _ _ _ _ htc ha hf] at hne
        | Secure =>
            cases ha : st.nativeAdapter with
            | none => simp [set_secure_none _ _ _ _ _ htc ha]
            | some a =>
                cases hf : a.failMsg with
                | some m => simp [set_secure_fail _ _ _ _ _ _ _ htc ha hf]
                | none => simp [set_secure_ok _ _ _ _ _ _ htc ha hf] at hne

/-- Witness for C2 at a concrete input: a Memory `set` on a dispatcher
with one registered Memory listener delivers exactly one notification
to it, and a `set` with an invalid selector delivers none. -/
theorem c2_witness :
    (HybridStorage.set cbs0 "a" "1" 0 stL).events = [⟨0, "a", some "1", [0]⟩] ∧
    (HybridStorage.set cbs0 "a" "1" 3 st0).events = [] := by
  constructor
  · have h := (c2_set_notification cbs0 "a" "1" 0 stL).1 .Memory rfl rfl
    exact h.trans (by rfl)
  · exact (c2_set_notification cbs0 "a" "1" 3 st0).2 (by
      rw [set_badscope cbs0 "a" "1" 3 st0 .invalidScope rfl]
      simp)

/-- C3 counterexample: `addOnChange` with the out-of-range selector 3
does not raise an invalid-argument error — it succeeds and registers a
listener under channel 3. -/
theorem c3_counterexample :
    (HybridStorage.addOnChange 3 st0).res = .ok 0 ∧
    (HybridStorage.addOnChange 3 st0).state.listeners 3 = [⟨0⟩] := by
  constructor <;> rfl

/-- C3 (amended): every `toScope`-validated scope-taking operation
(`set`, `get`, `remove`, `has`, `getAllKeys`, `size`, `clear`,
`setBatch` with equal-length inputs, `getBatch`, `removeBatch`) rejects
a selector outside {0, 1, 2} with an invalid-argument error and no
other effect; `addOnChange`, however, performs no validation — it
accepts any selector, truncating it to an integer channel. -/
theorem c3_amended_scope_validation (cbs : CbBehavior) (k v : String)
    (keys values : List String) (q : Rat) (st : StorageState)
    (hq : ¬(q = 0 ∨ q = 1 ∨ q = 2)) :
    HybridStorage.set cbs k v q st = ⟨.error .invalidScope, st, []⟩ ∧
    HybridStorage.get k q st = ⟨.error .invalidScope, st, []⟩ ∧
    HybridStorage.remove cbs k q st = ⟨.error .invalidScope, st, []⟩ ∧
    HybridStorage.has k q st = ⟨.error .invalidScope, st, []⟩ ∧
    HybridStorage.getAllKeys q st = ⟨.error .invalidScope, st, []⟩ ∧
    HybridStorage.size q st = ⟨.error .invalidScope, st, []⟩ ∧
    HybridStorage.clear cbs q st = ⟨.error .invalidScope, st, []⟩ ∧
    (keys.length = values.length →
      HybridStorage.setBatch cbs keys values q st = ⟨.error .invalidScope, st, []⟩) ∧
    HybridStorage.getBatch keys q st = ⟨.error .invalidScope, st, []⟩ ∧
    HybridStorage.removeBatch cbs keys q st = ⟨.error .invalidScope, st, []⟩ ∧
    (HybridStorage.addOnChange q st).res = .ok st.nextListenerId := by
  have he := toScope_not012 q hq
  exact ⟨set_badscope _ _ _ _ _ _ he, get_badscope _ _ _ _ he,
    remove_badscope _ _ _ _ _ he, has_badscope _ _ _ _ he,
    getAllKeys_badscope _ _ _ he, size_badscope _ _ _ he,
    clear_badscope _ _ _ _ he, fun hL => setBatch_badscope _ _ _ _ _ _ hL he,
    getBatch_badscope _ _ _ _ he, removeBatch_badscope _ _ _ _ _ he, rfl⟩

/-- Witness for C3 (amended) at the concrete selector 3. -/
theorem c3_witness :
    HybridStorage.get "k" 3 st0 = ⟨.error .invalidScope, st0, []⟩ ∧
    (HybridStorage.addOnChange 3 stL).res = .ok 1 := by
  have h := c3_amended_scope_validation cbs0 "k" "v" ["k"] ["v"] 3 st0 (by decide)
  have h2 := c3_amended_scope_validation cbs0 "k" "v" ["k"] ["v"] 3 stL (by decide)
  exact ⟨h.2.1, h2.2.2.2.2.2.2.2.2.2.2⟩

theorem getBatch_res_lookup (keys : List String) (q : Rat) (st : StorageState)
    (s : Scope) (htc : toScope q = .ok s) (hr : scopeReadable st s) :
    (HybridStorage.getBatch keys q st).res =
      .ok (keys.map (fun k => (lookupScope st k s).getD kBatchMissingSentinel)) := by
  cases s with
  | Memory => simp [getBatch_memory _ _ _ htc, lookupScope]
  | Disk =>
      obtain ⟨a, ha, hf⟩ := (adapterStatus_some_none_iff st).1 hr
      simp [getBatch_disk_ok _ _ _ _ htc ha hf, lookupScope, ha]
  | Secure =>
      obtain ⟨a, ha, hf⟩ := (adapterStatus_some_none_iff st).1 hr
      simp [getBatch_secure_ok _ _ _ _ htc ha hf, lookupScope, ha]

/-- C4: for every key sequence and valid scope (with, for Disk/Secure,
a working adapter attached), `getBatch` returns — without throwing — a
sequence of the same length in which position `i` holds the stored
value of `keys[i]` when present and the reserved missing-key sentinel
when absent, in input order. -/
theorem c4_getBatch_positional (keys : List String) (q : Rat) (st : StorageState)
    (s : Scope) (htc : toScope q = .ok s) (hr : scopeReadable st s) :
    (HybridStorage.getBatch keys q st).res =
      .ok (keys.map (fun k => (lookupScope st k s).getD kBatchMissingSentinel)) ∧
    ∀ out, (HybridStorage.getBatch keys q st).res = .ok out →
      out.length = keys.length ∧
      ∀ i : Nat, out[i]? = (keys[i]?).map
        (fun k => (lookupScope st k s).getD kBatchMissingSentinel) := by
  have h := getBatch_res_lookup keys q st s htc hr
  refine ⟨h, fun out hout => ?_⟩
  rw [h] at hout
  have hout2 := Except.ok.inj hout
  subst hout2
  exact ⟨by simp, fun i => by simp [List.getElem?_map]⟩

/-- Witness for C4 at a concrete input: Memory scope with `"a" ↦ "1"`
stored; `"b"` is absent and yields the sentinel instead of an error. -/
theorem c4_witness :
    (HybridStorage.getBatch ["a", "b"] 0 stM).res =
      .ok ["1", kBatchMissingSentinel] := by
  have h := (c4_getBatch_positional ["a", "b"] 0 stM .Memory rfl trivial).1
  exact h.trans (by rfl)

/-- C5 counterexample: the sentinel is an ordinary storable string —
after `set("k", <sentinel>, Memory)` the key is present, yet the
`getBatch` element for it equals the sentinel, so a sentinel element
does not imply the key is absent. -/
theorem c5_counterexample :
    (HybridStorage.getBatch ["k"] 0
      (HybridStorage.set cbs0 "k" kBatchMissingSentinel 0 st0).state).res
      = .ok [kBatchMissingSentinel] ∧
    storeGet (HybridStorage.set cbs0 "k" kBatchMissingSentinel 0 st0).state.memoryStore "k"
      = some kBatchMissingSentinel := by
  constructor <;> rfl

/-- C5 (amended): the sentinel distinguishes an absent key from every
stored value other than the sentinel string itself: whenever the value
stored at the key is not the sentinel, the `getBatch` element equals
the sentinel iff the key is absent. -/
theorem c5_amended_sentinel (k : String) (q : Rat) (st : StorageState) (s : Scope)
    (htc : toScope q = .ok s) (hr : scopeReadable st s)
    (hv : lookupScope st k s ≠ some kBatchMissingSentinel) :
    ((HybridStorage.getBatch [k] q st).res = .ok [kBatchMissingSentinel] ↔
      lookupScope st k s = none) := by
  rw [getBatch_res_lookup [k] q st s htc hr]
  constructor
  · intro he
    have he2 : (lookupScope st k s).getD kBatchMissingSentinel
        = kBatchMissingSentinel := by simpa using he
    cases hlu : lookupScope st k s with
    | none => rfl
    | some w =>
        rw [hlu] at he2
        simp at he2
        exact absurd (hlu.trans (by rw [he2])) hv
  · intro hn
    simp [hn]

/-- Witness for C5 (amended) at a concrete input: `"b"` is absent in
`stM`, so its `getBatch` element is the sentinel. -/
theorem c5_witness :
    ((HybridStorage.getBatch ["b"] 0 stM).res = .ok [kBatchMissingSentinel] ↔
      lookupScope stM "b" .Memory = none) :=
  c5_amended_sentinel "b" 0 stM .Memory rfl trivial (by decide)

/-- C6 counterexample: `has` carries no `try`/`catch`, so the raw
platform error of a failing adapter reaches the caller unwrapped. -/
theorem c6_counterexample :
    (HybridStorage.has "k" 1 stF).res = .error (.adapterRaw "boom") := by rfl

/-- C6 (amended): on an adapter whose operation raises a platform
error, the `try`/`catch`-wrapped operations (`set`, `get`, `remove`,
`clear`, `setBatch`, `getBatch`, `removeBatch` on Disk/Secure, and the
biometric set/get/delete/clear) rethrow a dispatcher error whose
message carries the operation and scope context; but `has`,
`getAllKeys`, `size`, the two configuration setters and
`hasSecureBiometric` propagate the adapter's error unwrapped. -/
theorem c6_amended_error_wrapping (cbs : CbBehavior) (k v : String)
    (st : StorageState) (a : AdapterState) (m : String)
    (ha : st.nativeAdapter = some a) (hf : a.failMsg = some m) :
    (HybridStorage.set cbs k v 1 st).res =
      .error (.wrapped ("NitroStorage: Disk set failed: " ++ m)) ∧
    (HybridStorage.set cbs k v 2 st).res =
      .error (.wrapped ("NitroStorage: Secure set failed: " ++ m)) ∧
    (HybridStorage.get k 1 st).res =
      .error (.wrapped ("NitroStorage: Disk get failed: " ++ m)) ∧
    (HybridStorage.get k 2 st).res =
      .error (.wrapped ("NitroStorage: Secure get failed: " ++ m)) ∧
    (HybridStorage.remove cbs k 1 st).res =
      .error (.wrapped ("NitroStorage: Disk delete failed: " ++ m)) ∧
    (HybridStorage.remove cbs k 2 st).res =
      .error (.wrapped ("NitroStorage: Secure delete failed: " ++ m)) ∧
    (HybridStorage.clear cbs 1 st).res =
      .error (.wrapped ("NitroStorage: Disk clear failed: " ++ m)) ∧
    (HybridStorage.clear cbs 2 st).res =
      .error (.wrapped ("NitroStorage: Secure clear failed: " ++ m)) ∧
    (HybridStorage.setBatch cbs [k] [v] 1 st).res =
      .error (.wrapped ("NitroStorage: Disk setBatch failed: " ++ m)) ∧
    (HybridStorage.setBatch cbs [k] [v] 2 st).res =
      .error (.wrapped ("NitroStorage: Secure setBatch failed: " ++ m)) ∧
    (HybridStorage.getBatch [k] 1 st).res =
      .error (.wrapped ("NitroStorage: Disk getBatch failed: " ++ m)) ∧
    (HybridStorage.getBatch [k] 2 st).res =
      .error (.wrapped ("NitroStorage: Secure getBatch failed: " ++ m)) ∧
    (HybridStorage.removeBatch cbs [k] 1 st).res =
      .error (.wrapped ("NitroStorage: Disk removeBatch failed: " ++ m)) ∧
    (HybridStorage.removeBatch cbs [k] 2 st).res =
      .error (.wrapped ("NitroStorage: Secure removeBatch failed: " ++ m)) ∧
    (HybridStorage.setSecureBiometric cbs k v st).res =
      .error (.wrapped ("NitroStorage: Biometric set failed: " ++ m)) ∧
    (HybridStorage.getSecureBiometric k st).res =
      .error (.wrapped ("NitroStorage: Biometric get failed: " ++ m)) ∧
    (HybridStorage.deleteSecureBiometric cbs k st).res =
      .error (.wrapped ("NitroStorage: Biometric delete failed: " ++ m)) ∧
    (HybridStorage.clearSecureBiometric cbs st).res =
      .error (.wrapped ("NitroStorage: Biometric clear failed: " ++ m)) ∧
    (HybridStorage.has k 1 st).res = .error (.adapterRaw m) ∧
    (HybridStorage.has k 2 st).res = .error (.adapterRaw m) ∧
    (HybridStorage.getAllKeys 1 st).res = .error (.adapterRaw m) ∧
    (HybridStorage.getAllKeys 2 st).res = .error (.adapterRaw m) ∧
    (HybridStorage.size 1 st).res = .error (.adapterRaw m) ∧
    (HybridStorage.size 2 st).res = .error (.adapterRaw m) ∧
    (HybridStorage.setSecureAccessControl 0 st).res = .error (.adapterRaw m) ∧
    (HybridStorage.setKeychainAccessGroup v st).res = .error (.adapterRaw m) ∧
    (HybridStorage.hasSecureBiometric k st).res = .error (.adapterRaw m) :=
  ⟨by rw [set_disk_fail cbs k v 1 st a m toScope_one ha hf],
    by rw [set_secure_fail cbs k v 2 st a m toScope_two ha hf],
    by rw [get_disk_fail k 1 st a m toScope_one ha hf],
    by rw [get_secure_fail k 2 st a m toScope_two ha hf],
    by rw [remove_disk_fail cbs k 1 st a m toScope_one ha hf],
    by rw [remove_secure_fail cbs k 2 st a m toScope_two ha hf],
    by rw [clear_disk_fail cbs 1 st a m toScope_one ha hf],
    by rw [clear_secure_fail cbs 2 st a m toScope_two ha hf],
    by rw [setBatch_disk_fail cbs [k] [v] 1 st a m rfl toScope_one ha hf],
    by rw [setBatch_secure_fail cbs [k] [v] 2 st a m rfl toScope_two ha hf],
    by rw [getBatch_disk_fail [k] 1 st a m toScope_one ha hf],
    by rw [getBatch_secure_fail [k] 2 st a m toScope_two ha hf],
    by rw [removeBatch_disk_fail cbs [k] 1 st a m toScope_one ha hf],
    by rw [removeBatch_secure_fail cbs [k] 2 st a m toScope_two ha hf],
    by rw [setSecureBiometric_fail cbs k v st a m ha hf],
    by rw [getSecureBiometric_fail k st a m ha hf],
    by rw [deleteSecureBiometric_fail cbs k st a m ha hf],
    by rw [clearSecureBiometric_fail cbs st a m ha hf],
    by rw [has_disk_fail k 1 st a m toScope_one ha hf],
    by rw [has_secure_fail k 2 st a m toScope_two ha hf],
    by rw [getAllKeys_disk_fail 1 st a m toScope_one ha hf],
    by rw [getAllKeys_secure_fail 2 st a m toScope_two ha hf],
    by rw [size_disk_fail 1 st a m toScope_one ha hf],
    by rw [size_secure_fail 2 st a m toScope_two ha hf],
    by rw [setSecureAccessControl_fail 0 st a m ha hf],
    by rw [setKeychainAccessGroup_fail v st a m ha hf],
    by rw [hasSecureBiometric_fail k st a m ha hf]⟩

/-- Witness for C6 (amended) at the concrete failing adapter `aF`
("boom"): a wrapped dispatcher error for `set`, a raw unwrapped error
for `getAllKeys`. -/
theorem c6_witness :
    (HybridStorage.set cbs0 "k" "v" 1 stF).res =
      .error (.wrapped ("NitroStorage: Disk set failed: " ++ "boom")) ∧
    (HybridStorage.getAllKeys 1 stF).res = .error (.adapterRaw "boom") := by
  have h := c6_amended_error_wrapping cbs0 "k" "v" stF aF "boom" rfl rfl
  exact ⟨h.1, h.2.2.2.2.2.2.2.2.2.2.2.2.2.2.2.2.2.2.2.2.1⟩

/-- C7: `setBatch` with mismatched key/value lengths raises the
invalid-argument error and performs no mutation and no notification,
for every scope selector and dispatcher state. -/
theorem c7_setBatch_mismatch (cbs : CbBehavior) (keys values : List String)
    (q : Rat) (st : StorageState) (hL : keys.length ≠ values.length) :
    HybridStorage.setBatch cbs keys values q st = ⟨.error .sizeMismatch, st, []⟩ :=
  setBatch_mismatch cbs keys values q st hL

/-- Witness for C7 at a concrete input (even with an out-of-range
selector and no adapter, the length check fires first). -/
theorem c7_witness :
    HybridStorage.setBatch cbs0 ["a"] [] 5 st0 = ⟨.error .sizeMismatch, st0, []⟩ :=
  c7_setBatch_mismatch cbs0 ["a"] [] 5 st0 (by decide)

/-- C8: during one notification, every listener in the snapshot is
invoked no matter which callbacks raise — a raised callback is swallowed
and the remaining listeners still run — and the triggering storage
operation still completes successfully with its single notification
delivered to the whole snapshot. -/
theorem c8_listener_exception_swallowed (cbs : CbBehavior) (k v : String)
    (value : Option String) (ls : List Listener) (st : StorageState) :
    runSnapshot cbs k value ls = ls.map Listener.id ∧
    (HybridStorage.set cbs k v 0 st).res = .ok () ∧
    (HybridStorage.set cbs k v 0 st).events =
      [⟨0, k, some v, (st.listeners 0).map Listener.id⟩] := by
  refine ⟨runSnapshot_ids cbs k value ls, ?_, ?_⟩
  · simp [set_memory cbs k v 0 st toScope_zero]
  · simp [set_memory cbs k v 0 st toScope_zero, notifyListeners, runSnapshot_ids]

/-- C9 counterexample: with no adapter attached, the configuration
setters raise the adapter-not-initialized error — they are not
error-free in every dispatcher state. -/
theorem c9_counterexample :
    (HybridStorage.setSecureAccessControl 1 st0).res = .error .adapterNotInitialized ∧
    (HybridStorage.setKeychainAccessGroup "group" st0).res
      = .error .adapterNotInitialized := by
  constructor <;> rfl

/-- C9 (amended): with a healthy adapter attached, the two
configuration setters are pass-through updates of the adapter's
configuration fields — they succeed, change neither the memory store
nor the disk/secure domains, and emit no notification; with no adapter
attached they raise the adapter-not-initialized error instead of being
accepted as no-ops. -/
theorem c9_amended_config_passthrough (level : Rat) (g : String)
    (st st2 : StorageState) (a : AdapterState) (ha : st.nativeAdapter = some a)
    (hf : a.failMsg = none) (ha2 : st2.nativeAdapter = none) :
    HybridStorage.setSecureAccessControl level st =
      ⟨.ok (), { st with nativeAdapter := some { a with
        accessControlLevel := cppTruncToInt level } }, []⟩ ∧
    HybridStorage.setKeychainAccessGroup g st =
      ⟨.ok (), { st with nativeAdapter := some { a with
        keychainGroup := g } }, []⟩ ∧
    (HybridStorage.setSecureAccessControl level st2).res
      = .error .adapterNotInitialized ∧
    (HybridStorage.setKeychainAccessGroup g st2).res
      = .error .adapterNotInitialized :=
  ⟨setSecureAccessControl_ok level st a ha hf,
    setKeychainAccessGroup_ok g st a ha hf,
    by rw [setSecureAccessControl_none level st2 ha2],
    by rw [setKeychainAccessGroup_none g st2 ha2]⟩

/-- Witness for C9 (amended) at concrete states: healthy adapter `stA`
and adapterless `st0`. -/
theorem c9_witness :
    (HybridStorage.setSecureAccessControl 1 stA).res = .ok () ∧
    (HybridStorage.setSecureAccessControl 1 stA).state.nativeAdapter
      = some { a0 with accessControlLevel := 1 } ∧
    (HybridStorage.setKeychainAccessGroup "grp" st0).res
      = .error .adapterNotInitialized := by
  have h := c9_amended_config_passthrough 1 "grp" stA st0 a0 rfl rfl rfl
  refine ⟨?_, ?_, h.2.2.2⟩
  · rw [h.1]
  · rw [h.1]
    rfl

/-- C10: every Memory-scope operation is fully determined by the memory
store and the listener registry — it never consults the native adapter,
succeeds (given `setBatch`'s length precondition) even when no adapter
is attached, and leaves the adapter, and hence the Disk and Secure
stores, unchanged. -/
theorem c10_memory_scope_frame (cbs : CbBehavior) (k v : String)
    (keys values : List String) (st : StorageState)
    (hL : keys.length = values.length) :
    HybridStorage.set cbs k v 0 st =
      ⟨.ok (), { st with memoryStore := storeSet st.memoryStore k v },
        [notifyListeners cbs 0 k (some v)
          { st with memoryStore := storeSet st.memoryStore k v }]⟩ ∧
    HybridStorage.get k 0 st = ⟨.ok (storeGet st.memoryStore k), st, []⟩ ∧
    HybridStorage.remove cbs k 0 st =
      ⟨.ok (), { st with memoryStore := storeErase st.memoryStore k },
        [notifyListeners cbs 0 k none
          { st with memoryStore := storeErase st.memoryStore k }]⟩ ∧
    HybridStorage.has k 0 st = ⟨.ok (storeGet st.memoryStore k).isSome, st, []⟩ ∧
    HybridStorage.getAllKeys 0 st = ⟨.ok (st.memoryStore.map Prod.fst), st, []⟩ ∧
    HybridStorage.size 0 st = ⟨.ok st.memoryStore.length, st, []⟩ ∧
    HybridStorage.clear cbs 0 st =
      ⟨.ok (), { st with memoryStore := [] },
        [notifyListeners cbs 0 "" none { st with memoryStore := [] }]⟩ ∧
    HybridStorage.setBatch cbs keys values 0 st =
      ⟨.ok (), { st with memoryStore := storeSetBatch st.memoryStore keys values },
        (keys.zip values).map (fun p => notifyListeners cbs 0 p.1 (some p.2)
          { st with memoryStore := storeSetBatch st.memoryStore keys values })⟩ ∧
    HybridStorage.getBatch keys 0 st =
      ⟨.ok (keys.map (fun k2 => (storeGet st.memoryStore k2).getD kBatchMissingSentinel)),
        st, []⟩ ∧
    HybridStorage.removeBatch cbs keys 0 st =
      ⟨.ok (), { st with memoryStore := storeEraseBatch st.memoryStore keys },
        keys.map (fun k2 => notifyListeners cbs 0 k2 none
          { st with memoryStore := storeEraseBatch st.memoryStore keys })⟩ :=
  ⟨set_memory _ _ _ _ _ toScope_zero, get_memory _ _ _ toScope_zero,
    remove_memory _ _ _ _ toScope_zero, has_memory _ _ _ toScope_zero,
    getAllKeys_memory _ _ toScope_zero, size_memory _ _ toScope_zero,
    clear_memory _ _ _ toScope_zero,
    setBatch_memory _ _ _ _ _ hL toScope_zero,
    getBatch_memory _ _ _ toScope_zero,
    removeBatch_memory _ _ _ _ toScope_zero⟩

/-- Witness for C10 at a concrete adapterless dispatcher: the Memory
operations succeed and leave the (absent) adapter untouched. -/
theorem c10_witness :
    (HybridStorage.set cbs0 "a" "1" 0 st0).res = .ok () ∧
    (HybridStorage.set cbs0 "a" "1" 0 st0).state.nativeAdapter = none ∧
    (HybridStorage.setBatch cbs0 ["a", "b"] ["1", "2"] 0 st0).res = .ok () ∧
    (HybridStorage.getBatch ["a", "b"] 0 st0).res
      = .ok [kBatchMissingSentinel, kBatchMissingSentinel] := by
  have h := c10_memory_scope_frame cbs0 "a" "1" ["a", "b"] ["1", "2"] st0 rfl
  refine ⟨?_, ?_, ?_, ?_⟩
  · rw [h.1]
  · rw [h.1]
    rfl
  · rw [h.2.2.2.2.2.2.2.1]
  · rw [h.2.2.2.2.2.2.2.2.1]
    rfl

end NitroStorage
